import Mathlib

/-!
Verification of the qgb Game Boy emulator core against its specification.

The Rust sources are shallowly embedded: u8/u16 values are natural numbers
reduced modulo 256 / 65536 at the points where the Rust types guarantee the
range, i64 cycle counters are integers, and Rust panics (assert failures,
unreachable arms, out-of-bounds indexing) are modelled by Option, with none
meaning the program panics.  Fallible constructors return Option as well,
with none standing for the Err case.
-/

namespace QGB

/-! Bit helpers from src/bits.rs (trait Bits for u8, plus the same shape for
the u16 uses in the timer, where the code works on the little-endian bytes). -/

/-- Bits::bit for u8: (self >> index) & 1 == 1. -/
def bit8 (v i : Nat) : Bool := (v >>> i) &&& 1 == 1

/-- Bits::bits for u8 over an inclusive nonempty range lo..=hi:
(self << (7 - hi)) >> (7 - hi + lo), with the left shift wrapping in u8. -/
def bits8 (v lo hi : Nat) : Nat := ((v <<< (7 - hi)) % 256) >>> (7 - hi + lo)

/-- Bits::set_bit for u8. -/
def setBit8 (v i : Nat) : Nat := v ||| (1 <<< i)

/-- Bits::reset_bit for u8: self &= !(1 << index). -/
def resetBit8 (v i : Nat) : Nat := v &&& (255 ^^^ (1 <<< i))

/-! Cartridge embedding, from src/cartridge/. -/

def ROM_BANK_SIZE : Nat := 16 * 1024

def RAM_BANK_SIZE : Nat := 8 * 1024

/-- Cartridge header, from src/cartridge/header.rs.  Only the fields the
bank-switching logic consults are modelled; the identification fields
(title, cartridge_type, checksum, checksum_passed) never influence the
operations under verification and are omitted. -/
structure Header where
rom_banks : Nat
ram_banks : Nat
deriving DecidableEq

/-- CartridgeBase, from src/cartridge/cartridge_base.rs.  The ROM image is a
byte function plus its length; external RAM, when present, is a byte function
whose length is RAM_BANK_SIZE * ram_banks as allocated by CartridgeBase::new. -/
structure CartridgeBase where
rom : Nat → Nat
romLen : Nat
rom_bank0 : Nat
rom_bank1 : Nat
ram : Option (Nat → Nat)
ram_bank : Nat
ram_enabled : Bool
header : Header

/-- CartridgeBase::new. -/
def CartridgeBase.new (rom : Nat → Nat) (romLen : Nat) (h : Header) : CartridgeBase :=
{ rom := rom
  romLen := romLen
  rom_bank0 := 0
  rom_bank1 := 1
  ram := if h.ram_banks = 0 then none else some (fun _ => 0)
  ram_bank := 0
  ram_enabled := false
  header := h }

/-- CartridgeBase::read_rom.  none models a panic (assert failure or
out-of-bounds ROM indexing); the unreachable arm for addr above 0x7FFF is
also none. -/
def CartridgeBase.read_rom (c : CartridgeBase) (addr : Nat) : Option Nat :=
if addr ≤ 0x3FFF then
  if c.rom_bank0 < c.header.rom_banks then
    let i := ROM_BANK_SIZE * c.rom_bank0 + addr
    if i < c.romLen then some (c.rom i % 256) else none
  else none
else if addr ≤ 0x7FFF then
  if c.rom_bank1 < c.header.rom_banks then
    let i := ROM_BANK_SIZE * c.rom_bank1 + (addr - 0x4000)
    if i < c.romLen then some (c.rom i % 256) else none
  else none
else none

/-- CartridgeBase::write_rom only logs a warning and changes nothing. -/
def CartridgeBase.write_rom (c : CartridgeBase) (_addr _value : Nat) : CartridgeBase := c

/-- CartridgeBase::read_ram.  DEFAULT_READ_VALUE in cartridge_base.rs is 0. -/
def CartridgeBase.read_ram (c : CartridgeBase) (addr : Nat) : Option Nat :=
match c.ram with
| some ram =>
  if c.ram_enabled then
    if c.ram_bank < c.header.ram_banks then
      let i := RAM_BANK_SIZE * c.ram_bank + addr
      if i < RAM_BANK_SIZE * c.header.ram_banks then some (ram i % 256) else none
    else none
  else some 0
| none => some 0

/-- CartridgeBase::write_ram. -/
def CartridgeBase.write_ram (c : CartridgeBase) (addr value : Nat) : Option CartridgeBase :=
match c.ram with
| some ram =>
  if c.ram_enabled then
    if c.ram_bank < c.header.ram_banks then
      let i := RAM_BANK_SIZE * c.ram_bank + addr
      if i < RAM_BANK_SIZE * c.header.ram_banks then
        some { c with ram := some (fun j => if j = i then value % 256 else ram j) }
      else none
    else none
  else some c
| none => some c

/-- BankMode, from src/cartridge/mbc1.rs. -/
inductive BankMode where
| Simple
| Advanced
deriving DecidableEq

/-- Mbc1 cartridge state, from src/cartridge/mbc1.rs. -/
structure Mbc1 where
cartridge_base : CartridgeBase
rom_bank_reg : Nat
rom_bank_mask : Nat
ram_bank_reg : Nat
bank_mode : BankMode
large_rom : Bool
large_ram : Bool

/-- Mbc1::new.  none models the Err(RomError::Oversized) return.  The
header ram_banks adjustments for unsupported configurations are reproduced
from the source. -/
def Mbc1.new (rom : Nat → Nat) (romLen : Nat) (h : Header) : Option Mbc1 :=
if 128 < h.rom_banks then none
else
  let large_rom : Bool := decide (64 ≤ h.rom_banks)
  let adjusted : Nat × Bool :=
    if 4 < h.ram_banks then
      if large_rom then (1, false) else (4, true)
    else if large_rom ∧ h.ram_banks = 4 then (1, false)
    else (h.ram_banks, decide (h.ram_banks = 4))
  let ram_banks := adjusted.1
  let large_ram := adjusted.2
  if large_ram ∧ large_rom then none
  else
    let rom_bank_mask : Nat :=
      match h.rom_banks with
      | 2 => 1
      | 4 => 3
      | 8 => 7
      | 16 => 15
      | _ => 31
    some
      { cartridge_base := CartridgeBase.new rom romLen { rom_banks := h.rom_banks, ram_banks := ram_banks }
        rom_bank_reg := 0
        rom_bank_mask := rom_bank_mask
        ram_bank_reg := 0
        bank_mode := BankMode.Simple
        large_rom := large_rom
        large_ram := large_ram }

/-- Mbc1::update_rom_bank0.  The shift rom_bank_reg << 5 happens on u8 and
wraps; none models the assert on the bank bound firing. -/
def Mbc1.update_rom_bank0 (m : Mbc1) : Option Mbc1 :=
let bank : Nat :=
  match m.bank_mode with
  | BankMode.Simple => 0
  | BankMode.Advanced => if m.large_ram then 0 else (m.rom_bank_reg <<< 5) % 256
if bank < m.cartridge_base.header.rom_banks then
  some { m with cartridge_base := { m.cartridge_base with rom_bank0 := bank } }
else none

/-- Mbc1::update_rom_bank1.  Note the source tests rom_bank_reg == 0 before
masking, and combines the upper bits with a bitwise AND. -/
def Mbc1.update_rom_bank1 (m : Mbc1) : Option Mbc1 :=
let bank := m.rom_bank_reg &&& m.rom_bank_mask
let bank := if m.rom_bank_reg = 0 then bank + 1 else bank
let bank := if m.large_rom then bank &&& ((m.ram_bank_reg <<< 5) % 256) else bank
if bank < m.cartridge_base.header.rom_banks then
  some { m with cartridge_base := { m.cartridge_base with rom_bank1 := bank } }
else none

/-- Mbc1::update_ram_bank.  Note the source assigns rom_bank_reg, and the
assert allows ram_banks == 0. -/
def Mbc1.update_ram_bank (m : Mbc1) : Option Mbc1 :=
let bank : Nat :=
  match m.bank_mode with
  | BankMode.Simple => 0
  | BankMode.Advanced => if m.large_rom then 0 else m.rom_bank_reg
if bank < m.cartridge_base.header.ram_banks ∨ m.cartridge_base.header.ram_banks = 0 then
  some { m with cartridge_base := { m.cartridge_base with ram_bank := bank } }
else none

/-- Mbc1::update_banks. -/
def Mbc1.update_banks (m : Mbc1) : Option Mbc1 := do
let m ← m.update_rom_bank0
let m ← m.update_rom_bank1
m.update_ram_bank

/-- Mbc1::write_rom (the CartridgeInterface impl).  The value is a u8; the
final unreachable arm for addr above 0x7FFF is none. -/
def Mbc1.write_rom (m : Mbc1) (addr value : Nat) : Option Mbc1 := do
let value := value % 256
let m ←
  if addr ≤ 0x1FFF then
    let enable := value &&& 0x0F = 0x0A
    if enable ∧ m.cartridge_base.header.ram_banks ≠ 0 then
      some { m with cartridge_base := { m.cartridge_base with ram_enabled := true } }
    else
      some { m with cartridge_base := { m.cartridge_base with ram_enabled := false } }
  else if addr ≤ 0x3FFF then
    some { m with rom_bank_reg := value &&& 0x1F }
  else if addr ≤ 0x5FFF then
    some { m with ram_bank_reg := if m.large_ram ∨ m.large_rom then value &&& 0x03 else 0 }
  else if addr ≤ 0x7FFF then
    if m.large_ram ∨ m.large_rom then
      let value := value &&& 0x01
      some { m with bank_mode := if value = 0 then BankMode.Simple else BankMode.Advanced }
    else some m
  else none
m.update_banks

/-- Mbc1::read_rom delegates to the base. -/
def Mbc1.read_rom (m : Mbc1) (addr : Nat) : Option Nat := m.cartridge_base.read_rom addr

/-- Mbc1::read_ram delegates to the base. -/
def Mbc1.read_ram (m : Mbc1) (addr : Nat) : Option Nat := m.cartridge_base.read_ram addr

/-- Mbc1::write_ram delegates to the base. -/
def Mbc1.write_ram (m : Mbc1) (addr value : Nat) : Option Mbc1 :=
(m.cartridge_base.write_ram addr value).map fun c => { m with cartridge_base := c }

/-! Concrete MBC1 cartridge used as the failing input for claims C1 and C8:
a 2 MiB image (128 ROM banks, so large_rom holds) with no external RAM. -/

/-- An all-zero 2 MiB ROM image for the MBC1 counterexamples. -/
def zeroRom : Nat → Nat := fun _ => 0

/-- The MBC1 state after loading a 128-bank ROM and writing 0x02 to the RAM
bank register (0x4000) and then 0x05 to the ROM bank register (0x2000). -/
def mbc1AfterC1Writes : Option Mbc1 := do
let m ← Mbc1.new zeroRom (ROM_BANK_SIZE * 128) { rom_banks := 128, ram_banks := 0 }
let m ← m.write_rom 0x4000 0x02
m.write_rom 0x2000 0x05

/-- The MBC1 state after loading a 128-bank ROM, selecting Advanced banking
mode (write 0x01 to 0x6000) and then writing 0x04 to the ROM bank register. -/
def mbc1AfterC8Writes : Option Mbc1 := do
let m ← Mbc1.new zeroRom (ROM_BANK_SIZE * 128) { rom_banks := 128, ram_banks := 0 }
let m ← m.write_rom 0x6000 0x01
m.write_rom 0x2000 0x04

/-- C1: after writing ram_bank_reg := 2 and rom_bank_reg := 5 on a 128-bank
(large_rom) MBC1 cartridge, the code leaves the high ROM window at bank 0,
because update_rom_bank1 combines ram_bank_reg << 5 with a bitwise AND
instead of the OR the claim states; the claim predicts bank
(5 AND 0x1F) OR (2 << 5) = 0x45. -/
theorem c1_rom_bank1_is_and_not_or :
    (mbc1AfterC1Writes.map fun m => m.cartridge_base.rom_bank1) = some 0 ∧
    ((5 &&& 0x1F) ||| (2 <<< 5)) = 0x45 ∧ (0 : Nat) ≠ 0x45 := by
  refine ⟨rfl, rfl, by norm_num⟩

/-- C8: on a 128-bank MBC1 cartridge, selecting Advanced mode and then
writing 0x04 to the ROM bank register makes update_rom_bank0 compute bank
(4 << 5) = 128 from rom_bank_reg, and the assert rom_bank0 < rom_banks
(128 < 128) fires: write_rom panics, modelled here as none. -/
theorem c8_update_rom_bank0_assert_fires : mbc1AfterC8Writes = none := rfl

/-! Interrupt registers, from src/components/interrupts.rs.  The bitflags
type InterruptFlag keeps only the five low bits (from_bits_truncate). -/

/-- The five interrupts, in priority order. -/
inductive Interrupt where
| VBlank
| LcdStat
| Timer
| Serial
| Joypad
deriving DecidableEq

/-- Interrupt::handler_address. -/
def Interrupt.handler_address : Interrupt → Nat
| Interrupt.VBlank => 0x0040
| Interrupt.LcdStat => 0x0048
| Interrupt.Timer => 0x0050
| Interrupt.Serial => 0x0058
| Interrupt.Joypad => 0x0060

/-- Interrupt::as_interrupt_flag, as the numeric flag bit. -/
def Interrupt.as_interrupt_flag : Interrupt → Nat
| Interrupt.VBlank => 0x01
| Interrupt.LcdStat => 0x02
| Interrupt.Timer => 0x04
| Interrupt.Serial => 0x08
| Interrupt.Joypad => 0x10

/-- InterruptRegisters, from src/components/interrupts.rs. -/
structure InterruptRegisters where
reg_ie : Nat
reg_if : Nat
deriving DecidableEq

/-- InterruptRegisters::write with InterruptFlag::from_bits_truncate. -/
def InterruptRegisters.write (r : InterruptRegisters) (addr value : Nat) : Option InterruptRegisters :=
if addr = 0xFFFF then some { r with reg_ie := value &&& 0x1F }
else if addr = 0xFF0F then some { r with reg_if := value &&& 0x1F }
else none

/-- InterruptRegisters::read. -/
def InterruptRegisters.read (r : InterruptRegisters) (addr : Nat) : Option Nat :=
if addr = 0xFFFF then some r.reg_ie
else if addr = 0xFF0F then some r.reg_if
else none

/-- InterruptManager::if_set for InterruptRegisters. -/
def InterruptRegisters.if_set (r : InterruptRegisters) (i : Interrupt) : InterruptRegisters :=
{ r with reg_if := r.reg_if ||| i.as_interrupt_flag }

/-- InterruptManager::if_reset for InterruptRegisters. -/
def InterruptRegisters.if_reset (r : InterruptRegisters) (i : Interrupt) : InterruptRegisters :=
{ r with reg_if := r.reg_if &&& (0x1F ^^^ i.as_interrupt_flag) }

/-- InterruptManager::priority_interrupt: the highest-priority bit set in
IE AND IF. -/
def InterruptRegisters.priority_interrupt (r : InterruptRegisters) : Option Interrupt :=
let flag := r.reg_ie &&& r.reg_if
if bit8 flag 0 then some Interrupt.VBlank
else if bit8 flag 1 then some Interrupt.LcdStat
else if bit8 flag 2 then some Interrupt.Timer
else if bit8 flag 3 then some Interrupt.Serial
else if bit8 flag 4 then some Interrupt.Joypad
else none

/-! Timers, from src/components/timers.rs. -/

def DIV_REG : Nat := 0xFF04

def TIMA_REG : Nat := 0xFF05

def TMA_REG : Nat := 0xFF06

def TAC_REG : Nat := 0xFF07

/-- Timer state: the free-running 16-bit system clock plus the TIMA, TMA
and TAC registers. -/
structure Timers where
system_clock : Nat
tima : Nat
tma : Nat
tac : Nat
deriving DecidableEq

/-- Timers::new. -/
def Timers.new : Timers := { system_clock := 0, tima := 0, tma := 0, tac := 0 }

/-- Timers::timer_enabled: TAC bit 2. -/
def Timers.timer_enabled (t : Timers) : Bool := bit8 t.tac 2

/-- Timers::falling_edge_detector.  The u16 clock values are split into
little-endian bytes exactly as to_le_bytes does: index 0 is the low byte,
index 1 the high byte.  Note the tap = 3 arm of the source reads bit 7 of
bytes[1] (the high byte) of the new clock while reading bit 7 of bytes[0]
(the low byte) of the previous clock.  The final arm is dead because the
two selector bits are below 4. -/
def Timers.falling_edge_detector (t : Timers) (prev : Nat) : Bool :=
let prev_lo := prev % 256
let prev_hi := prev / 256 % 256
let lo := t.system_clock % 256
let hi := t.system_clock / 256 % 256
let bits :=
  match bits8 t.tac 0 1 with
  | 0 => (bit8 prev_hi 1, bit8 hi 1)
  | 1 => (bit8 prev_lo 3, bit8 lo 3)
  | 2 => (bit8 prev_lo 5, bit8 lo 5)
  | 3 => (bit8 prev_lo 7, bit8 hi 7)
  | _ => (false, false)
bits.1 && !bits.2

/-- Timers::increment_tima, together with the interrupt manager it flags
the Timer interrupt on. -/
def Timers.increment_tima (t : Timers) (ir : InterruptRegisters) : Timers × InterruptRegisters :=
let new_value := (t.tima + 1) % 256
if t.tima + 1 ≥ 256 then
  ({ t with tima := t.tma }, ir.if_set Interrupt.Timer)
else
  ({ t with tima := new_value }, ir)

/-- Timers::increment_system_clock: advance the clock by one T-cycle and
increment TIMA when the enabled falling-edge detector fires. -/
def Timers.increment_system_clock (t : Timers) (ir : InterruptRegisters) : Timers × InterruptRegisters :=
let prev := t.system_clock
let t := { t with system_clock := (t.system_clock + 1) % 65536 }
if t.timer_enabled && t.falling_edge_detector prev then
  t.increment_tima ir
else (t, ir)

/-- Timers::tick: run increment_system_clock once per cycle.  The source
iterates for 0..cycles over an i64; a nonpositive count runs no iterations,
so a natural-number count is the faithful domain. -/
def Timers.tick (t : Timers) (ir : InterruptRegisters) : Nat → Timers × InterruptRegisters
| 0 => (t, ir)
| n + 1 =>
  let p := t.increment_system_clock ir
  p.1.tick p.2 n

/-- Timers::read. -/
def Timers.read (t : Timers) (addr : Nat) : Option Nat :=
if addr = DIV_REG then some (t.system_clock / 256 % 256)
else if addr = TIMA_REG then some t.tima
else if addr = TMA_REG then some t.tma
else if addr = TAC_REG then some t.tac
else none

/-- Timers::write.  Writing DIV resets the system clock to zero and can
fire the falling-edge detector. -/
def Timers.write (t : Timers) (addr value : Nat) (ir : InterruptRegisters) :
    Option (Timers × InterruptRegisters) :=
if addr = DIV_REG then
  let prev := t.system_clock
  let t := { t with system_clock := 0 }
  if t.timer_enabled && t.falling_edge_detector prev then
    some (t.increment_tima ir)
  else some (t, ir)
else if addr = TIMA_REG then some ({ t with tima := value % 256 }, ir)
else if addr = TMA_REG then some ({ t with tma := value % 256 }, ir)
else if addr = TAC_REG then some ({ t with tac := bits8 (value % 256) 0 2 }, ir)
else none

/-- Timer state with TAC = 0b111 (enabled, tap selector 3 = bit 7 of the
system clock) and the system clock at 0x7FFF, one tick before the low-byte
bit 7 falls. -/
def c4Timers : Timers := { system_clock := 0x7FFF, tima := 0, tma := 0, tac := 0x07 }

/-- C4: with tap selector 3 the tap is bit 7 of the system clock; stepping
the clock from 0x7FFF to 0x8000 is a 1 to 0 transition of that bit while
the timer is enabled, so the claim requires TIMA to become 1.  The code
instead compares against bit 7 of the high byte (bit 15) of the new clock,
which is 1, so the detector does not fire and TIMA stays 0. -/
theorem c4_tap3_reads_wrong_byte :
    bit8 (0x7FFF % 256) 7 = true ∧
    bit8 (0x8000 % 256) 7 = false ∧
    c4Timers.timer_enabled = true ∧
    (c4Timers.increment_system_clock { reg_ie := 0, reg_if := 0 }).1.system_clock = 0x8000 ∧
    (c4Timers.increment_system_clock { reg_ie := 0, reg_if := 0 }).1.tima = 0 := by
  refine ⟨rfl, rfl, rfl, by decide, by decide⟩

/-! Joypad and serial input/output handler, from src/components/io.rs. -/

/-- Joypad button state. -/
structure Joypad where
up : Bool
down : Bool
left : Bool
right : Bool
a : Bool
b : Bool
start : Bool
select : Bool
deriving DecidableEq

/-- Joypad::new. -/
def Joypad.new : Joypad :=
  { up := false, down := false, left := false, right := false
    a := false, b := false, start := false, select := false }

/-- IoHandler, from src/components/io.rs. -/
structure IoHandler where
joy : Nat
sb : Nat
sc : Nat
sent_bytes : List Nat
remaining_cycles : Int
joypad : Joypad

/-- IoHandler::new. -/
def IoHandler.new : IoHandler :=
  { joy := 0, sb := 0, sc := 0, sent_bytes := [], remaining_cycles := 0, joypad := Joypad.new }

/-- The helper set_bit_condition: reset the bit when cond holds, set it
otherwise. -/
def set_bit_condition (value : Nat) (index : Nat) (cond : Bool) : Nat :=
if cond then resetBit8 value index else setBit8 value index

/-- IoHandler::compute_joy. -/
def IoHandler.compute_joy (io : IoHandler) : Nat :=
let value := io.joy
if !(bit8 io.joy 5) then
  let value := set_bit_condition value 3 io.joypad.start
  let value := set_bit_condition value 2 io.joypad.select
  let value := set_bit_condition value 1 io.joypad.b
  set_bit_condition value 0 io.joypad.a
else if !(bit8 io.joy 4) then
  let value := set_bit_condition value 3 io.joypad.down
  let value := set_bit_condition value 2 io.joypad.up
  let value := set_bit_condition value 1 io.joypad.left
  set_bit_condition value 0 io.joypad.right
else value

/-- IoHandler::read; the unreachable arm is none. -/
def IoHandler.read (io : IoHandler) (addr : Nat) : Option Nat :=
if addr = 0xFF00 then some io.compute_joy
else if addr = 0xFF01 then some io.sb
else if addr = 0xFF02 then some io.sc
else none

/-- IoHandler::write; the unreachable arm is none. -/
def IoHandler.write (io : IoHandler) (addr value : Nat) : Option IoHandler :=
if addr = 0xFF00 then some { io with joy := value &&& 0x30 }
else if addr = 0xFF01 then some { io with sb := value % 256 }
else if addr = 0xFF02 then some { io with sc := value &&& 0x81 }
else none

/-- IoHandler::serial_transfer_byte. -/
def IoHandler.serial_transfer_byte (io : IoHandler) : IoHandler :=
{ io with sent_bytes := io.sent_bytes ++ [io.sb], sb := 0, sc := resetBit8 io.sc 7 }

/-- IoHandler::tick. -/
def IoHandler.tick (io : IoHandler) (cycles : Int) : IoHandler :=
if io.sc = 0x81 then
  let io := { io with remaining_cycles := io.remaining_cycles + cycles }
  if io.remaining_cycles ≥ 4 then
    { io with remaining_cycles := 0 }.serial_transfer_byte
  else
    { io with remaining_cycles := 0 }
else io

/-! Cartridge dispatch, from src/cartridge/mod.rs (the two supported
variants) and src/cartridge/rom_only.rs. -/

/-- The supported cartridge variants behind the CartridgeInterface trait
object. -/
inductive Cartridge where
| romOnly (c : CartridgeBase)
| mbc1 (m : Mbc1)

/-- RomOnly::new: exactly two ROM banks, RAM always enabled when present. -/
def RomOnly.new (rom : Nat → Nat) (romLen : Nat) (h : Header) : Option Cartridge :=
if h.rom_banks ≠ 2 then none
else
  let base := CartridgeBase.new rom romLen h
  let base := if h.ram_banks ≠ 0 then { base with ram_enabled := true } else base
  some (Cartridge.romOnly base)

/-- CartridgeInterface::read_rom for the two variants. -/
def Cartridge.read_rom : Cartridge → Nat → Option Nat
| Cartridge.romOnly c, addr => c.read_rom addr
| Cartridge.mbc1 m, addr => m.read_rom addr

/-- CartridgeInterface::write_rom for the two variants. -/
def Cartridge.write_rom : Cartridge → Nat → Nat → Option Cartridge
| Cartridge.romOnly c, addr, value => some (Cartridge.romOnly (c.write_rom addr value))
| Cartridge.mbc1 m, addr, value => (m.write_rom addr value).map Cartridge.mbc1

/-- CartridgeInterface::read_ram for the two variants. -/
def Cartridge.read_ram : Cartridge → Nat → Option Nat
| Cartridge.romOnly c, addr => c.read_ram addr
| Cartridge.mbc1 m, addr => m.read_ram addr

/-- CartridgeInterface::write_ram for the two variants. -/
def Cartridge.write_ram : Cartridge → Nat → Nat → Option Cartridge
| Cartridge.romOnly c, addr, value => (c.write_ram addr value).map Cartridge.romOnly
| Cartridge.mbc1 m, addr, value => (m.write_ram addr value).map Cartridge.mbc1

/-! Memory management unit, from src/components/mmu/mmu.rs. -/

/-- Memory mapped devices and locations. -/
inductive MappedAddress where
| CartridgeRom
| VRam (o : Nat)
| ExternalRam (o : Nat)
| WRam (o : Nat)
| MirrorRam (o : Nat)
| Oam (o : Nat)
| IoReg
| TimerReg
| ApuReg
| PpuReg
| BankReg
| HRam (o : Nat)
| Interrupt
deriving DecidableEq

/-- TryFrom for u16 into MappedAddress; none is the Err case for unmapped
holes. -/
def MappedAddress.tryFromAddr (addr : Nat) : Option MappedAddress :=
if addr ≤ 0x7FFF then some MappedAddress.CartridgeRom
else if addr ≤ 0x9FFF then some (MappedAddress.VRam (addr - 0x8000))
else if addr ≤ 0xBFFF then some (MappedAddress.ExternalRam (addr - 0xA000))
else if addr ≤ 0xDFFF then some (MappedAddress.WRam (addr - 0xC000))
else if addr ≤ 0xFDFF then some (MappedAddress.MirrorRam (addr - 0xE000))
else if 0xFE00 ≤ addr ∧ addr ≤ 0xFE9F then some (MappedAddress.Oam (addr - 0xFE00))
else if 0xFF00 ≤ addr ∧ addr ≤ 0xFF02 then some MappedAddress.IoReg
else if 0xFF04 ≤ addr ∧ addr ≤ 0xFF07 then some MappedAddress.TimerReg
else if addr = 0xFF0F then some MappedAddress.Interrupt
else if (0xFF10 ≤ addr ∧ addr ≤ 0xFF14) ∨ (0xFF16 ≤ addr ∧ addr ≤ 0xFF26)
    ∨ (0xFF30 ≤ addr ∧ addr ≤ 0xFF3F) then some MappedAddress.ApuReg
else if 0xFF40 ≤ addr ∧ addr ≤ 0xFF4B then some MappedAddress.PpuReg
else if addr = 0xFF50 then some MappedAddress.BankReg
else if 0xFF80 ≤ addr ∧ addr ≤ 0xFFFE then some (MappedAddress.HRam (addr - 0xFF80))
else if addr = 0xFFFF then some MappedAddress.Interrupt
else none

/-- The MMU state.  The timers and the interrupt registers are not fields
of the source Mmu struct; the TimerReg and Interrupt arms of its
read/write dispatch are commented out. -/
structure Mmu where
boot_rom : Nat → Nat
boot_mode : Bool
cartridge : Cartridge
hram : Nat → Nat
wram : Nat → Nat
io : IoHandler

/-- Mmu::raw_read.  The outer Option models a panic inside a component;
the inner Option models the None return for addresses that cannot be read
(unmapped holes, the write-only bank register, and every arm that is
commented out in the source: VRam, MirrorRam, Oam, TimerReg, ApuReg,
PpuReg, Interrupt). -/
def Mmu.raw_read (m : Mmu) (addr : Nat) : Option (Option Nat) :=
match MappedAddress.tryFromAddr addr with
| none => some none
| some MappedAddress.BankReg => some none
| some mapped_addr =>
  let boot_rom_read := m.boot_mode && addr < 0x100
  match mapped_addr with
  | MappedAddress.CartridgeRom =>
    if boot_rom_read then some (some (m.boot_rom addr % 256))
    else (m.cartridge.read_rom addr).map some
  | MappedAddress.ExternalRam o => (m.cartridge.read_ram o).map some
  | MappedAddress.WRam o => some (some (m.wram o % 256))
  | MappedAddress.IoReg => (m.io.read addr).map some
  | MappedAddress.HRam o => some (some (m.hram o % 256))
  | _ => some none

/-- Mmu::raw_write, with the same two Option layers as raw_read.  Only
the bank register arm touches boot_mode. -/
def Mmu.raw_write (m : Mmu) (addr value : Nat) : Option (Option Mmu) :=
match MappedAddress.tryFromAddr addr with
| none => some none
| some mapped_addr =>
  match mapped_addr with
  | MappedAddress.CartridgeRom =>
    (m.cartridge.write_rom addr value).map fun c => some { m with cartridge := c }
  | MappedAddress.ExternalRam o =>
    (m.cartridge.write_ram o value).map fun c => some { m with cartridge := c }
  | MappedAddress.WRam o =>
    some (some { m with wram := fun j => if j = o then value % 256 else m.wram j })
  | MappedAddress.IoReg => (m.io.write addr value).map fun io => some { m with io := io }
  | MappedAddress.BankReg =>
    some (some (if value ≠ 0 then { m with boot_mode := false } else m))
  | MappedAddress.HRam o =>
    some (some { m with hram := fun j => if j = o then value % 256 else m.hram j })
  | _ => some none

/-- ReadWriteMemory::read for Mmu: unreadable addresses are absorbed into
DEFAULT_READ_VALUE = 0xFF.  The address is a u16 and the value a u8. -/
def Mmu.read (m : Mmu) (addr : Nat) : Option Nat :=
match m.raw_read (addr % 65536) with
| some (some v) => some v
| some none => some 0xFF
| none => none

/-- ReadWriteMemory::write for Mmu: failed raw writes are logged and
dropped. -/
def Mmu.write (m : Mmu) (addr value : Nat) : Option Mmu :=
match m.raw_write (addr % 65536) (value % 256) with
| some (some m) => some m
| some none => some m
| none => none

/-- Run a sequence of MMU writes in order. -/
def Mmu.writeSeq (m : Mmu) : List (Nat × Nat) → Option Mmu
| [] => some m
| p :: ws => (m.write p.1 p.2).bind fun m1 => m1.writeSeq ws

/-- Only the address 0xFF50 maps to the bank register. -/
theorem tryFromAddr_bankReg {x : Nat}
    (h : MappedAddress.tryFromAddr x = some MappedAddress.BankReg) : x = 0xFF50 := by
  unfold MappedAddress.tryFromAddr at h
  by_cases h1 : x ≤ 0x7FFF
  · rw [if_pos h1] at h; exact absurd h (by simp)
  rw [if_neg h1] at h
  by_cases h2 : x ≤ 0x9FFF
  · rw [if_pos h2] at h; exact absurd h (by simp)
  rw [if_neg h2] at h
  by_cases h3 : x ≤ 0xBFFF
  · rw [if_pos h3] at h; exact absurd h (by simp)
  rw [if_neg h3] at h
  by_cases h4 : x ≤ 0xDFFF
  · rw [if_pos h4] at h; exact absurd h (by simp)
  rw [if_neg h4] at h
  by_cases h5 : x ≤ 0xFDFF
  · rw [if_pos h5] at h; exact absurd h (by simp)
  rw [if_neg h5] at h
  by_cases h6 : 0xFE00 ≤ x ∧ x ≤ 0xFE9F
  · rw [if_pos h6] at h; exact absurd h (by simp)
  rw [if_neg h6] at h
  by_cases h7 : 0xFF00 ≤ x ∧ x ≤ 0xFF02
  · rw [if_pos h7] at h; exact absurd h (by simp)
  rw [if_neg h7] at h
  by_cases h8 : 0xFF04 ≤ x ∧ x ≤ 0xFF07
  · rw [if_pos h8] at h; exact absurd h (by simp)
  rw [if_neg h8] at h
  by_cases h9 : x = 0xFF0F
  · rw [if_pos h9] at h; exact absurd h (by simp)
  rw [if_neg h9] at h
  by_cases h10 : (0xFF10 ≤ x ∧ x ≤ 0xFF14) ∨ (0xFF16 ≤ x ∧ x ≤ 0xFF26) ∨ (0xFF30 ≤ x ∧ x ≤ 0xFF3F)
  · rw [if_pos h10] at h; exact absurd h (by simp)
  rw [if_neg h10] at h
  by_cases h11 : 0xFF40 ≤ x ∧ x ≤ 0xFF4B
  · rw [if_pos h11] at h; exact absurd h (by simp)
  rw [if_neg h11] at h
  by_cases h12 : x = 0xFF50
  · exact h12
  rw [if_neg h12] at h
  by_cases h13 : 0xFF80 ≤ x ∧ x ≤ 0xFFFE
  · rw [if_pos h13] at h; exact absurd h (by simp)
  rw [if_neg h13] at h
  by_cases h14 : x = 0xFFFF
  · rw [if_pos h14] at h; exact absurd h (by simp)
  rw [if_neg h14] at h
  exact absurd h (by simp)

/-- A raw write whose target is not the bank register leaves boot_mode
unchanged. -/
theorem Mmu.raw_write_boot_mode {m : Mmu} {a v : Nat} {r : Mmu}
    (hne : MappedAddress.tryFromAddr a ≠ some MappedAddress.BankReg)
    (h : m.raw_write a v = some (some r)) : r.boot_mode = m.boot_mode := by
  unfold Mmu.raw_write at h
  rcases he : MappedAddress.tryFromAddr a with _ | ma
  · rw [he] at h; simp at h
  · rw [he] at h
    cases ma with
    | CartridgeRom =>
      rcases Option.map_eq_some'.mp h with ⟨c, _, hr⟩
      cases hr
      rfl
    | ExternalRam o =>
      rcases Option.map_eq_some'.mp h with ⟨c, _, hr⟩
      cases hr
      rfl
    | WRam o => simp at h; rw [← h]
    | IoReg =>
      rcases Option.map_eq_some'.mp h with ⟨io, _, hr⟩
      cases hr
      rfl
    | BankReg => exact absurd he hne
    | HRam o => simp at h; rw [← h]
    | VRam o => simp at h
    | MirrorRam o => simp at h
    | Oam o => simp at h
    | TimerReg => simp at h
    | ApuReg => simp at h
    | PpuReg => simp at h
    | Interrupt => simp at h

/-- Effect of a single MMU write on boot_mode: it is cleared exactly by a
nonzero write to 0xFF50 and untouched by every other write. -/
theorem Mmu.write_boot_mode {m : Mmu} {a v : Nat} {m' : Mmu}
    (h : m.write a v = some m') :
    m'.boot_mode = if a % 65536 = 0xFF50 ∧ v % 256 ≠ 0 then false else m.boot_mode := by
  by_cases hb : a % 65536 = 0xFF50
  · have hbr : MappedAddress.tryFromAddr (a % 65536) = some MappedAddress.BankReg := by
      rw [hb]; decide
    unfold Mmu.write Mmu.raw_write at h
    rw [hbr] at h
    by_cases hv : v % 256 = 0
    · simp [hv] at h
      rw [← h]
      simp [hb, hv]
    · simp [hv] at h
      rw [← h]
      simp [hb, hv]
  · have hne : MappedAddress.tryFromAddr (a % 65536) ≠ some MappedAddress.BankReg := by
      intro hc; exact hb (tryFromAddr_bankReg hc)
    rw [if_neg (by intro hc; exact hb hc.1)]
    unfold Mmu.write at h
    rcases hr : m.raw_write (a % 65536) (v % 256) with _ | mo
    · rw [hr] at h; simp at h
    · rw [hr] at h
      rcases mo with _ | r
      · simp at h; rw [← h]
      · simp at h
        rw [← h]
        exact Mmu.raw_write_boot_mode hne hr

/-- Effect of a write sequence on boot_mode: it ends false exactly when it
started false or some write in the sequence hits 0xFF50 with a nonzero
byte. -/
theorem Mmu.writeSeq_boot_mode {ws : List (Nat × Nat)} :
    ∀ {m m' : Mmu}, m.writeSeq ws = some m' →
      m'.boot_mode =
        (m.boot_mode && !(ws.any fun p => decide (p.1 % 65536 = 0xFF50) && decide (p.2 % 256 ≠ 0))) := by
  induction ws with
  | nil =>
    intro m m' h
    simp only [Mmu.writeSeq, Option.some.injEq] at h
    rw [← h]
    simp
  | cons p ws ih =>
    intro m m' h
    simp only [Mmu.writeSeq] at h
    rcases h1 : m.write p.1 p.2 with _ | m1
    · rw [h1] at h; simp at h
    · rw [h1] at h
      simp only [Option.some_bind] at h
      have h2 := @ih m1 m' h
      have h3 := Mmu.write_boot_mode h1
      by_cases hp : p.1 % 65536 = 0xFF50 ∧ p.2 % 256 ≠ 0
      · rw [if_pos hp] at h3
        rw [h2, h3]
        simp [List.any_cons, hp.1, hp.2]
      · rw [if_neg hp] at h3
        rw [h2, h3]
        rcases Decidable.not_and_iff_or_not.mp hp with hp1 | hp2
        · simp [List.any_cons, hp1]
        · simp only [Ne, not_not] at hp2
          simp [List.any_cons, hp2]

/-- C7: starting in boot mode, after any sequence of MMU writes the boot
flag is cleared exactly when the sequence contains a write of a nonzero
byte to 0xFF50; in particular the first such write clears it, zero writes
never change it, later writes to 0xFF50 are no-ops for it, and it never
returns to true. -/
theorem c7_boot_mode_transitions_once (m : Mmu) (ws : List (Nat × Nat)) (m' : Mmu)
    (h0 : m.boot_mode = true) (h : m.writeSeq ws = some m') :
    m'.boot_mode = false ↔ ∃ p ∈ ws, p.1 % 65536 = 0xFF50 ∧ p.2 % 256 ≠ 0 := by
  rw [Mmu.writeSeq_boot_mode h, h0]
  simp [List.any_eq_true]

/-- A concrete MMU state in boot mode over a 32 KiB ROM-only cartridge,
with all memories zeroed. -/
def baseMmu : Mmu :=
  { boot_rom := fun _ => 0
    boot_mode := true
    cartridge := Cartridge.romOnly
      (CartridgeBase.new zeroRom (2 * ROM_BANK_SIZE) { rom_banks := 2, ram_banks := 0 })
    hram := fun _ => 0
    wram := fun _ => 0
    io := IoHandler.new }

/-- Witness for C7: writing 0x01 to 0xFF50 on the concrete boot-mode MMU
clears boot_mode. -/
theorem c7_boot_mode_transitions_once_witness :
    (baseMmu.writeSeq [(0xFF50, 1)]).map Mmu.boot_mode = some false := by
  have h : baseMmu.writeSeq [(0xFF50, 1)] = some { baseMmu with boot_mode := false } := rfl
  have h2 := (c7_boot_mode_transitions_once baseMmu [(0xFF50, 1)] _ rfl h).mpr
    ⟨(0xFF50, 1), by simp, by norm_num⟩
  calc (baseMmu.writeSeq [(0xFF50, 1)]).map Mmu.boot_mode
      = some (Mmu.boot_mode { baseMmu with boot_mode := false }) := by rw [h]; rfl
    _ = some false := by rw [h2]

/-- C9: on the concrete all-zero MMU state, reading the work-RAM mirror
address 0xE000 returns the unmapped default 0xFF because the MirrorRam arm
of Mmu::raw_read is commented out, while reading 0xC000 returns the actual
work-RAM byte 0x00: the mirror property fails. -/
theorem c9_mirror_read_is_unmapped :
    baseMmu.read 0xE000 = some 0xFF ∧ baseMmu.read 0xC000 = some 0x00 ∧
    (0xFF : Nat) ≠ 0x00 := ⟨rfl, rfl, by norm_num⟩

/-! CPU opcode decoder, from src/cpu/opcode.rs. -/

/-- The eight 8-bit register operands in their fixed decode ordering. -/
inductive Register where
| A
| B
| C
| D
| E
| H
| L
| DerefHL
deriving DecidableEq

/-- From u8 for Register; the unreachable arm is none. -/
def Register.ofNat? : Nat → Option Register
| 0 => some Register.B
| 1 => some Register.C
| 2 => some Register.D
| 3 => some Register.E
| 4 => some Register.H
| 5 => some Register.L
| 6 => some Register.DerefHL
| 7 => some Register.A
| _ => none

/-- The 16-bit register operands. -/
inductive WideRegister where
| BC
| DE
| HL
| SP
| AF
deriving DecidableEq

/-- WideRegister::from_rp; the unreachable arm is none. -/
def WideRegister.from_rp : Nat → Option WideRegister
| 0 => some WideRegister.BC
| 1 => some WideRegister.DE
| 2 => some WideRegister.HL
| 3 => some WideRegister.SP
| _ => none

/-- WideRegister::from_rp2; the unreachable arm is none. -/
def WideRegister.from_rp2 : Nat → Option WideRegister
| 0 => some WideRegister.BC
| 1 => some WideRegister.DE
| 2 => some WideRegister.HL
| 3 => some WideRegister.AF
| _ => none

/-- Branch conditions. -/
inductive FlagCondition where
| NZ
| Z
| NC
| C
deriving DecidableEq

/-- From u8 for FlagCondition; the unreachable arm is none. -/
def FlagCondition.ofNat? : Nat → Option FlagCondition
| 0 => some FlagCondition.NZ
| 1 => some FlagCondition.Z
| 2 => some FlagCondition.NC
| 3 => some FlagCondition.C
| _ => none

/-- Reinterpret a byte as an i8 (the ByteStream fetch_i8 default method). -/
def toI8 (b : Nat) : Int :=
if b % 256 < 128 then (b % 256 : Int) else (b % 256 : Int) - 256

/-- The opcode variants, with their decoded operands: u8 and u16 operands
as naturals, i8 displacements as integers. -/
inductive Opcode where
| Nop
| LdDerefImmSp (nn : Nat)
| Stop
| Jr (d : Int)
| JrCond (cond : FlagCondition) (d : Int)
| LdWideRegImm (w : WideRegister) (nn : Nat)
| AddHLWideReg (w : WideRegister)
| LdDerefWideRegA (w : WideRegister)
| LdADerefWideReg (w : WideRegister)
| LdHLIncA
| LdHLDecA
| LdAHLInc
| LdAHLDec
| IncWideReg (w : WideRegister)
| DecWideReg (w : WideRegister)
| IncReg (r : Register)
| DecReg (r : Register)
| LdRegImm (r : Register) (n : Nat)
| Rlca
| Rrca
| Rla
| Rra
| Daa
| Cpl
| Scf
| Ccf
| Ld (r1 r2 : Register)
| Halt
| Add (r : Register)
| Adc (r : Register)
| Sub (r : Register)
| Sbc (r : Register)
| And (r : Register)
| Xor (r : Register)
| Or (r : Register)
| Cp (r : Register)
| RetCond (cond : FlagCondition)
| LdOffsetImmA (n : Nat)
| AddSpDisp (d : Int)
| LdAOffsetImm (n : Nat)
| LdHLSPDisp (d : Int)
| PopWideReg (w : WideRegister)
| Ret
| Reti
| JpHL
| LdSPHL
| JPCondImm (cond : FlagCondition) (nn : Nat)
| LdOffsetCA
| LdDerefImmA (nn : Nat)
| LdAOffsetC
| LdADerefImm (nn : Nat)
| JP (nn : Nat)
| DI
| EI
| CallCondImm (cond : FlagCondition) (nn : Nat)
| PushWideReg (w : WideRegister)
| CallImm (nn : Nat)
| AddImm (n : Nat)
| AdcImm (n : Nat)
| SubImm (n : Nat)
| SbcImm (n : Nat)
| AndImm (n : Nat)
| XorImm (n : Nat)
| OrImm (n : Nat)
| CpImm (n : Nat)
| Rst (addr : Nat)
| Rlc (r : Register)
| Rrc (r : Register)
| Rl (r : Register)
| Rr (r : Register)
| Sla (r : Register)
| Sra (r : Register)
| Swap (r : Register)
| Srl (r : Register)
| Bit (b : Nat) (r : Register)
| Res (b : Nat) (r : Register)
| Set (b : Nat) (r : Register)

/-- Opcode::prefix_try_from as a pure function of the fetched byte after
the 0xCB prefix (bits8 masks its argument to u8 itself); none models the
unreachable panics. -/
def Opcode.cbTryFrom? (b : Nat) : Option Opcode :=
let x := bits8 b 6 7
let y := bits8 b 3 5
let z := bits8 b 0 2
match x with
| 0 =>
  match y with
  | 0 => (Register.ofNat? z).map Opcode.Rlc
  | 1 => (Register.ofNat? z).map Opcode.Rrc
  | 2 => (Register.ofNat? z).map Opcode.Rl
  | 3 => (Register.ofNat? z).map Opcode.Rr
  | 4 => (Register.ofNat? z).map Opcode.Sla
  | 5 => (Register.ofNat? z).map Opcode.Sra
  | 6 => (Register.ofNat? z).map Opcode.Swap
  | 7 => (Register.ofNat? z).map Opcode.Srl
  | _ => none
| 1 => (Register.ofNat? z).map (Opcode.Bit y)
| 2 => (Register.ofNat? z).map (Opcode.Res y)
| 3 => (Register.ofNat? z).map (Opcode.Set y)
| _ => none

/-- Opcode::try_from as a pure function of the opcode byte b0 and of the
two following stream bytes o1 and o2.  The source fetches operand bytes on
demand through the ByteStream, whose fetch only reads memory; reading them
eagerly is observationally equivalent.  none models the unreachable
panics; Except.error b is the undefined-opcode return carrying the fetched
byte. -/
def Opcode.decode? (b0 o1 o2 : Nat) : Option (Except Nat Opcode) :=
let b := b0 % 256
let o1 := o1 % 256
let o2 := o2 % 256
let x := bits8 b 6 7
let y := bits8 b 3 5
let z := bits8 b 0 2
let p := bits8 b 4 5
let q := bits8 b 3 3
let imm16 := o1 + 256 * o2
if b = 0xCB then (Opcode.cbTryFrom? o1).map Except.ok
else
  match x, z with
  | 0, 0 =>
    match y with
    | 0 => some (Except.ok Opcode.Nop)
    | 1 => some (Except.ok (Opcode.LdDerefImmSp imm16))
    | 2 => some (Except.ok Opcode.Stop)
    | 3 => some (Except.ok (Opcode.Jr (toI8 o1)))
    | y =>
      if y < 8 then
        (FlagCondition.ofNat? (y - 4)).map fun c => Except.ok (Opcode.JrCond c (toI8 o1))
      else none
  | 0, 1 =>
    match q with
    | 0 => (WideRegister.from_rp p).map fun w => Except.ok (Opcode.LdWideRegImm w imm16)
    | 1 => (WideRegister.from_rp p).map fun w => Except.ok (Opcode.AddHLWideReg w)
    | _ => none
  | 0, 2 =>
    match q, p with
    | 0, 0 => some (Except.ok (Opcode.LdDerefWideRegA WideRegister.BC))
    | 0, 1 => some (Except.ok (Opcode.LdDerefWideRegA WideRegister.DE))
    | 0, 2 => some (Except.ok Opcode.LdHLIncA)
    | 0, 3 => some (Except.ok Opcode.LdHLDecA)
    | 1, 0 => some (Except.ok (Opcode.LdADerefWideReg WideRegister.BC))
    | 1, 1 => some (Except.ok (Opcode.LdADerefWideReg WideRegister.DE))
    | 1, 2 => some (Except.ok Opcode.LdAHLInc)
    | 1, 3 => some (Except.ok Opcode.LdAHLDec)
    | _, _ => none
  | 0, 3 =>
    match q with
    | 0 => (WideRegister.from_rp p).map fun w => Except.ok (Opcode.IncWideReg w)
    | 1 => (WideRegister.from_rp p).map fun w => Except.ok (Opcode.DecWideReg w)
    | _ => none
  | 0, 4 => (Register.ofNat? y).map fun r => Except.ok (Opcode.IncReg r)
  | 0, 5 => (Register.ofNat? y).map fun r => Except.ok (Opcode.DecReg r)
  | 0, 6 => (Register.ofNat? y).map fun r => Except.ok (Opcode.LdRegImm r o1)
  | 0, 7 =>
    match y with
    | 0 => some (Except.ok Opcode.Rlca)
    | 1 => some (Except.ok Opcode.Rrca)
    | 2 => some (Except.ok Opcode.Rla)
    | 3 => some (Except.ok Opcode.Rra)
    | 4 => some (Except.ok Opcode.Daa)
    | 5 => some (Except.ok Opcode.Cpl)
    | 6 => some (Except.ok Opcode.Scf)
    | 7 => some (Except.ok Opcode.Ccf)
    | _ => none
  | 1, z =>
    if z = 6 ∧ y = 6 then some (Except.ok Opcode.Halt)
    else do
      let r1 ← Register.ofNat? y
      let r2 ← Register.ofNat? z
      some (Except.ok (Opcode.Ld r1 r2))
  | 2, z =>
    match y with
    | 0 => (Register.ofNat? z).map fun r => Except.ok (Opcode.Add r)
    | 1 => (Register.ofNat? z).map fun r => Except.ok (Opcode.Adc r)
    | 2 => (Register.ofNat? z).map fun r => Except.ok (Opcode.Sub r)
    | 3 => (Register.ofNat? z).map fun r => Except.ok (Opcode.Sbc r)
    | 4 => (Register.ofNat? z).map fun r => Except.ok (Opcode.And r)
    | 5 => (Register.ofNat? z).map fun r => Except.ok (Opcode.Xor r)
    | 6 => (Register.ofNat? z).map fun r => Except.ok (Opcode.Or r)
    | 7 => (Register.ofNat? z).map fun r => Except.ok (Opcode.Cp r)
    | _ => none
  | 3, 0 =>
    match y with
    | 0 | 1 | 2 | 3 => (FlagCondition.ofNat? y).map fun c => Except.ok (Opcode.RetCond c)
    | 4 => some (Except.ok (Opcode.LdOffsetImmA o1))
    | 5 => some (Except.ok (Opcode.AddSpDisp (toI8 o1)))
    | 6 => some (Except.ok (Opcode.LdAOffsetImm o1))
    | 7 => some (Except.ok (Opcode.LdHLSPDisp (toI8 o1)))
    | _ => none
  | 3, 1 =>
    match q, p with
    | 0, p => (WideRegister.from_rp2 p).map fun w => Except.ok (Opcode.PopWideReg w)
    | 1, 0 => some (Except.ok Opcode.Ret)
    | 1, 1 => some (Except.ok Opcode.Reti)
    | 1, 2 => some (Except.ok Opcode.JpHL)
    | 1, 3 => some (Except.ok Opcode.LdSPHL)
    | _, _ => none
  | 3, 2 =>
    match y with
    | 0 | 1 | 2 | 3 => (FlagCondition.ofNat? y).map fun c => Except.ok (Opcode.JPCondImm c imm16)
    | 4 => some (Except.ok Opcode.LdOffsetCA)
    | 5 => some (Except.ok (Opcode.LdDerefImmA imm16))
    | 6 => some (Except.ok Opcode.LdAOffsetC)
    | 7 => some (Except.ok (Opcode.LdADerefImm imm16))
    | _ => none
  | 3, 3 =>
    match y with
    | 0 => some (Except.ok (Opcode.JP imm16))
    | 2 | 3 | 4 | 5 => some (Except.error b)
    | 6 => some (Except.ok Opcode.DI)
    | 7 => some (Except.ok Opcode.EI)
    | _ => none
  | 3, 4 =>
    match y with
    | 0 | 1 | 2 | 3 => (FlagCondition.ofNat? y).map fun c => Except.ok (Opcode.CallCondImm c imm16)
    | 4 | 5 | 6 | 7 => some (Except.error b)
    | _ => none
  | 3, 5 =>
    match q, p with
    | 0, p => (WideRegister.from_rp2 p).map fun w => Except.ok (Opcode.PushWideReg w)
    | 1, 0 => some (Except.ok (Opcode.CallImm imm16))
    | 1, 1 | 1, 2 | 1, 3 => some (Except.error b)
    | _, _ => none
  | 3, 6 =>
    match y with
    | 0 => some (Except.ok (Opcode.AddImm o1))
    | 1 => some (Except.ok (Opcode.AdcImm o1))
    | 2 => some (Except.ok (Opcode.SubImm o1))
    | 3 => some (Except.ok (Opcode.SbcImm o1))
    | 4 => some (Except.ok (Opcode.AndImm o1))
    | 5 => some (Except.ok (Opcode.XorImm o1))
    | 6 => some (Except.ok (Opcode.OrImm o1))
    | 7 => some (Except.ok (Opcode.CpImm o1))
    | _ => none
  | 3, 7 => some (Except.ok (Opcode.Rst (y * 8)))
  | _, _ => none

/-- The u8 bit-field extraction only depends on the low byte of its
argument. -/
theorem bits8_mod (b lo hi : Nat) : bits8 (b % 256) lo hi = bits8 b lo hi := by
  unfold bits8
  congr 1
  rw [Nat.shiftLeft_eq, Nat.shiftLeft_eq]
  conv_lhs => rw [Nat.mul_mod, Nat.mod_mod_of_dvd _ dvd_rfl]
  rw [← Nat.mul_mod]

set_option maxRecDepth 8192 in
/-- The prefix decoder never hits an unreachable arm, checked over all 256
values of the low byte. -/
theorem cbTryFrom?_isSome : ∀ q : Fin 256, (Opcode.cbTryFrom? q.val).isSome = true := by decide

/-- The prefix decoder is total: every byte after 0xCB yields an opcode. -/
theorem cbTryFrom?_total (b : Nat) : ∃ op, Opcode.cbTryFrom? b = some op := by
  have h1 : Opcode.cbTryFrom? b = Opcode.cbTryFrom? (b % 256) := by
    unfold Opcode.cbTryFrom?
    rw [bits8_mod, bits8_mod, bits8_mod]
  have h2 := cbTryFrom?_isSome ⟨b % 256, Nat.mod_lt _ (by norm_num)⟩
  rw [h1]
  exact Option.isSome_iff_exists.mp h2

/-- The primary bytes the decoder rejects. -/
def undefinedOpcodes : List Nat := [0xD3, 0xDB, 0xDD, 0xE3, 0xE4, 0xEB, 0xEC, 0xED, 0xF4, 0xFC, 0xFD]

set_option maxHeartbeats 3200000 in
set_option maxRecDepth 8192 in
/-- C5: for every opcode byte and operand bytes, decoding never panics
(always returns some result); the result is an error exactly for the
eleven undefined primary bytes, the error carries the fetched byte, and
every byte after a 0xCB prefix decodes (the 0xCB case is never an
error). -/
theorem c5_decode_total_and_undefined (b0 o1 o2 : Nat) (hb : b0 < 256) :
    ∃ r, Opcode.decode? b0 o1 o2 = some r ∧
      ((∃ bb, r = Except.error bb) ↔ b0 ∈ undefinedOpcodes) ∧
      (∀ bb, r = Except.error bb → bb = b0) := by
  by_cases hcb : b0 = 0xCB
  · subst hcb
    obtain ⟨op, hop⟩ := cbTryFrom?_total (o1 % 256)
    refine ⟨Except.ok op, ?_, ?_, ?_⟩
    · have hd : Opcode.decode? 0xCB o1 o2 = (Opcode.cbTryFrom? (o1 % 256)).map Except.ok := rfl
      rw [hd, hop]
      rfl
    · simp [undefinedOpcodes]
    · intro bb hbb
      exact absurd hbb (by simp)
  · interval_cases b0 <;>
      first
      | (exact absurd rfl hcb)
      | (refine ⟨_, rfl, by simp [undefinedOpcodes], ?_⟩
         intro bb hbb
         first
         | (simp at hbb; omega)
         | (simp at hbb))

/-- Witness for C5 at the undefined byte 0xD3 with zero operand bytes. -/
theorem c5_decode_total_and_undefined_witness :
    (0xD3 : Nat) < 256 ∧
    ∃ r, Opcode.decode? 0xD3 0 0 = some r ∧
      ((∃ bb, r = Except.error bb) ↔ (0xD3 : Nat) ∈ undefinedOpcodes) ∧
      (∀ bb, r = Except.error bb → bb = 0xD3) :=
  ⟨by norm_num, c5_decode_total_and_undefined 0xD3 0 0 (by norm_num)⟩

/-! Instruction metadata, from src/cpu/instruction.rs. -/

/-- Flag bit positions of the F register (bitflags FlagsRegister). -/
def FlagZ : Nat := 0x80

def FlagN : Nat := 0x40

def FlagH : Nat := 0x20

def FlagC : Nat := 0x10

/-- bitflags insert. -/
def flagsInsert (f mask : Nat) : Nat := f ||| mask

/-- bitflags remove: bits &= !other. -/
def flagsRemove (f mask : Nat) : Nat := f &&& (0xFF ^^^ mask)

/-- bitflags contains. -/
def flagsContains (f mask : Nat) : Bool := f &&& mask == mask

/-- bitflags intersects. -/
def flagsIntersects (f mask : Nat) : Bool := f &&& mask != 0

/-- bitflags set. -/
def flagsSet (f mask : Nat) (b : Bool) : Nat :=
if b then flagsInsert f mask else flagsRemove f mask

/-- bitflags toggle. -/
def flagsToggle (f mask : Nat) : Nat := f ^^^ mask

/-- An opcode with its metadata.  Cycle counts are i64 TCycles
(integers); the length is a u16. -/
structure Instruction where
opcode : Opcode
length : Nat
read_cycles : Int
cycles : Int
branch_cycles : Int
set_flags : Nat
reset_flags : Nat

/-- The InstructionBuilder record with its optional fields. -/
structure InstructionBuilder where
opcode : Opcode
length : Option Nat
read_cycles : Option Int
cycles : Option Int
branch_cycles : Option Int
set_flags : Option Nat
reset_flags : Option Nat

/-- InstructionBuilder::new. -/
def InstructionBuilder.new (op : Opcode) : InstructionBuilder :=
{ opcode := op, length := none, read_cycles := none, cycles := none
  branch_cycles := none, set_flags := none, reset_flags := none }

/-- InstructionBuilder::length. -/
def InstructionBuilder.withLength (b : InstructionBuilder) (n : Nat) : InstructionBuilder :=
{ b with length := some n }

/-- InstructionBuilder::read_cycles. -/
def InstructionBuilder.withReadCycles (b : InstructionBuilder) (n : Int) : InstructionBuilder :=
{ b with read_cycles := some n }

/-- InstructionBuilder::cycles. -/
def InstructionBuilder.withCycles (b : InstructionBuilder) (n : Int) : InstructionBuilder :=
{ b with cycles := some n }

/-- InstructionBuilder::branch_cycles. -/
def InstructionBuilder.withBranchCycles (b : InstructionBuilder) (n : Int) : InstructionBuilder :=
{ b with branch_cycles := some n }

/-- InstructionBuilder::set_flag. -/
def InstructionBuilder.addSetFlag (b : InstructionBuilder) (flags : Nat) : InstructionBuilder :=
match b.set_flags with
| none => { b with set_flags := some flags }
| some fs => { b with set_flags := some (fs ||| flags) }

/-- InstructionBuilder::reset_flag. -/
def InstructionBuilder.addResetFlag (b : InstructionBuilder) (flags : Nat) : InstructionBuilder :=
match b.reset_flags with
| none => { b with reset_flags := some flags }
| some fs => { b with reset_flags := some (fs ||| flags) }

/-- InstructionBuilder::build with its defaults: length 1, read cycles 0,
cycles 4, branch cycles equal to cycles, empty flag masks. -/
def InstructionBuilder.build (b : InstructionBuilder) : Instruction :=
let cycles := b.cycles.getD 4
{ opcode := b.opcode
  length := b.length.getD 1
  read_cycles := b.read_cycles.getD 0
  cycles := cycles
  branch_cycles := b.branch_cycles.getD cycles
  set_flags := b.set_flags.getD 0
  reset_flags := b.reset_flags.getD 0 }

/-- The per-opcode builder configuration: the big match inside
Instruction::try_from. -/
def Instruction.configure (op : Opcode) : InstructionBuilder :=
let i := InstructionBuilder.new op
match op with
| Opcode.Nop => i
| Opcode.LdDerefImmSp _ => ((i.withLength 3).withReadCycles 8).withCycles 20
| Opcode.Stop => i.withLength 2
| Opcode.Jr _ => ((i.withLength 2).withReadCycles 4).withCycles 12
| Opcode.JrCond _ _ => (((i.withLength 2).withReadCycles 4).withCycles 8).withBranchCycles 12
| Opcode.LdWideRegImm _ _ => ((i.withLength 3).withReadCycles 8).withCycles 12
| Opcode.AddHLWideReg _ => (i.withCycles 8).addResetFlag FlagN
| Opcode.LdDerefWideRegA _ => i.withCycles 8
| Opcode.LdADerefWideReg _ => i.withCycles 8
| Opcode.LdHLIncA => i.withCycles 8
| Opcode.LdHLDecA => i.withCycles 8
| Opcode.LdAHLInc => i.withCycles 8
| Opcode.LdAHLDec => i.withCycles 8
| Opcode.IncWideReg _ => i.withCycles 8
| Opcode.DecWideReg _ => i.withCycles 8
| Opcode.IncReg Register.DerefHL => (i.withCycles 12).addResetFlag FlagN
| Opcode.IncReg _ => i.addResetFlag FlagN
| Opcode.DecReg Register.DerefHL => (i.withCycles 12).addSetFlag FlagN
| Opcode.DecReg _ => i.addSetFlag FlagN
| Opcode.LdRegImm Register.DerefHL _ => ((i.withLength 2).withReadCycles 4).withCycles 12
| Opcode.LdRegImm _ _ => ((i.withLength 2).withReadCycles 4).withCycles 8
| Opcode.Rlca | Opcode.Rrca | Opcode.Rla | Opcode.Rra =>
  i.addResetFlag (FlagZ ||| FlagN ||| FlagH)
| Opcode.Daa => i.addResetFlag FlagH
| Opcode.Cpl => i.addSetFlag (FlagN ||| FlagH)
| Opcode.Scf => (i.addResetFlag (FlagN ||| FlagH)).addSetFlag FlagC
| Opcode.Ccf => i.addResetFlag (FlagN ||| FlagH)
| Opcode.Ld Register.DerefHL _ | Opcode.Ld _ Register.DerefHL => i.withCycles 8
| Opcode.Ld _ _ => i
| Opcode.Halt => i
| Opcode.Add Register.DerefHL => (i.withCycles 8).addResetFlag FlagN
| Opcode.Add _ => i.addResetFlag FlagN
| Opcode.Adc Register.DerefHL => (i.withCycles 8).addResetFlag FlagN
| Opcode.Adc _ => i.addResetFlag FlagN
| Opcode.Sub Register.DerefHL => (i.withCycles 8).addSetFlag FlagN
| Opcode.Sub _ => i.addSetFlag FlagN
| Opcode.Sbc Register.DerefHL => (i.withCycles 8).addSetFlag FlagN
| Opcode.Sbc _ => i.addSetFlag FlagN
| Opcode.And Register.DerefHL => ((i.withCycles 8).addSetFlag FlagH).addResetFlag (FlagN ||| FlagC)
| Opcode.And _ => (i.addSetFlag FlagH).addResetFlag (FlagN ||| FlagC)
| Opcode.Xor Register.DerefHL => (i.withCycles 8).addResetFlag (FlagN ||| FlagH ||| FlagC)
| Opcode.Xor _ => i.addResetFlag (FlagN ||| FlagH ||| FlagC)
| Opcode.Or Register.DerefHL => (i.withCycles 8).addResetFlag (FlagN ||| FlagH ||| FlagC)
| Opcode.Or _ => i.addResetFlag (FlagN ||| FlagH ||| FlagC)
| Opcode.Cp Register.DerefHL => (i.withCycles 8).addSetFlag FlagN
| Opcode.Cp _ => i.addSetFlag FlagN
| Opcode.RetCond _ => (i.withCycles 8).withBranchCycles 20
| Opcode.LdOffsetImmA _ => ((i.withLength 2).withReadCycles 4).withCycles 12
| Opcode.AddSpDisp _ =>
  (((i.withLength 2).withReadCycles 4).withCycles 16).addResetFlag (FlagZ ||| FlagN)
| Opcode.LdAOffsetImm _ => ((i.withLength 2).withReadCycles 4).withCycles 12
| Opcode.LdHLSPDisp _ =>
  (((i.withLength 2).withReadCycles 4).withCycles 12).addResetFlag (FlagZ ||| FlagN)
| Opcode.PopWideReg _ => i.withCycles 12
| Opcode.Ret | Opcode.Reti => i.withCycles 16
| Opcode.JpHL => i
| Opcode.LdSPHL => i.withCycles 8
| Opcode.JPCondImm _ _ => (((i.withLength 3).withReadCycles 8).withCycles 12).withBranchCycles 16
| Opcode.LdOffsetCA => i.withCycles 8
| Opcode.LdDerefImmA _ => ((i.withLength 3).withReadCycles 8).withCycles 16
| Opcode.LdAOffsetC => i.withCycles 8
| Opcode.LdADerefImm _ => ((i.withLength 3).withReadCycles 8).withCycles 16
| Opcode.JP _ => ((i.withLength 3).withReadCycles 8).withCycles 16
| Opcode.DI | Opcode.EI => i
| Opcode.CallCondImm _ _ => (((i.withLength 3).withReadCycles 8).withCycles 12).withBranchCycles 24
| Opcode.PushWideReg _ => i.withCycles 16
| Opcode.CallImm _ => ((i.withLength 3).withReadCycles 8).withCycles 24
| Opcode.AddImm _ | Opcode.AdcImm _ =>
  (((i.withLength 2).withReadCycles 4).withCycles 8).addResetFlag FlagN
| Opcode.SubImm _ | Opcode.SbcImm _ | Opcode.CpImm _ =>
  (((i.withLength 2).withReadCycles 4).withCycles 8).addSetFlag FlagN
| Opcode.AndImm _ =>
  ((((i.withLength 2).withReadCycles 4).withCycles 8).addResetFlag (FlagN ||| FlagC)).addSetFlag FlagH
| Opcode.XorImm _ | Opcode.OrImm _ =>
  (((i.withLength 2).withReadCycles 4).withCycles 8).addResetFlag (FlagN ||| FlagH ||| FlagC)
| Opcode.Rst _ => i.withCycles 16
| Opcode.Rlc Register.DerefHL | Opcode.Rrc Register.DerefHL | Opcode.Rl Register.DerefHL
| Opcode.Rr Register.DerefHL | Opcode.Sla Register.DerefHL | Opcode.Sra Register.DerefHL
| Opcode.Srl Register.DerefHL =>
  ((i.withLength 2).withCycles 16).addResetFlag (FlagN ||| FlagH)
| Opcode.Rlc _ | Opcode.Rrc _ | Opcode.Rl _ | Opcode.Rr _ | Opcode.Sla _ | Opcode.Sra _
| Opcode.Srl _ =>
  ((i.withLength 2).withCycles 8).addResetFlag (FlagN ||| FlagH)
| Opcode.Swap Register.DerefHL => ((i.withLength 2).withCycles 16).addResetFlag (FlagN ||| FlagH ||| FlagC)
| Opcode.Swap _ => ((i.withLength 2).withCycles 8).addResetFlag (FlagN ||| FlagH ||| FlagC)
| Opcode.Bit _ Register.DerefHL => (((i.withLength 2).withCycles 12).addResetFlag FlagN).addSetFlag FlagH
| Opcode.Bit _ _ => (((i.withLength 2).withCycles 8).addResetFlag FlagN).addSetFlag FlagH
| Opcode.Res _ Register.DerefHL | Opcode.Set _ Register.DerefHL => (i.withLength 2).withCycles 16
| Opcode.Res _ _ | Opcode.Set _ _ => (i.withLength 2).withCycles 8

/-- An opcode together with its built metadata. -/
def Instruction.ofOpcode (op : Opcode) : Instruction := (Instruction.configure op).build

/-- Instruction::try_from: decode the opcode and build its metadata.  The
getD default is irrelevant: by c5_decode_total_and_undefined the decoder
never returns none. -/
def Instruction.tryFrom (b0 o1 o2 : Nat) : Except Nat Instruction :=
match (Opcode.decode? b0 o1 o2).getD (Except.error (b0 % 256)) with
| Except.ok op => Except.ok (Instruction.ofOpcode op)
| Except.error b => Except.error b

/-! CPU, from src/cpu/cpu.rs, src/cpu/alu.rs and src/cpu/execute.rs.  The
CPU is generic over its memory collaborator exactly as Cpu of T is generic
over T: ReadWriteMemory + Tick in the source. -/

/-- The ReadWriteMemory and Tick trait surface the CPU uses.  Reads take
an immutable receiver in the source and therefore do not change the
state. -/
class MmuOps (σ : Type) where
read : σ → Nat → Nat
write : σ → Nat → Nat → σ
tick : σ → Int → σ

/-- ReadWriteMemory::read_u16 default method: little-endian pair of
reads. -/
def MmuOps.read_u16 {σ : Type} [MmuOps σ] (m : σ) (addr : Nat) : Nat :=
(MmuOps.read m (addr % 65536) % 256) + 256 * (MmuOps.read m ((addr + 1) % 65536) % 256)

/-- ReadWriteMemory::write_u16 default method: write the low byte at addr
and the high byte at addr + 1. -/
def MmuOps.write_u16 {σ : Type} [MmuOps σ] (m : σ) (addr value : Nat) : σ :=
let m := MmuOps.write m (addr % 65536) (value % 256)
MmuOps.write m ((addr + 1) % 65536) (value / 256 % 256)

/-- u16 wrapping add of a signed displacement. -/
def addSigned16 (w : Nat) (d : Int) : Nat := (((w : Int) + d) % 65536).toNat

/-- The CPU register file, its memory collaborator and the rw_cycles
accounting field. -/
structure Cpu (σ : Type) where
a : Nat
b : Nat
c : Nat
d : Nat
e : Nat
f : Nat
h : Nat
l : Nat
sp : Nat
pc : Nat
mmu : σ
rw_cycles : Int

variable {σ : Type} [MmuOps σ]

/-- Cpu::new. -/
def Cpu.new (m : σ) : Cpu σ :=
{ a := 0, b := 0, c := 0, d := 0, e := 0, f := 0, h := 0, l := 0
  sp := 0, pc := 0, mmu := m, rw_cycles := 0 }

/-- Cpu::read: one byte, 4 T-cycles of accounting and ticking. -/
def Cpu.read (s : Cpu σ) (addr : Nat) : Nat × Cpu σ :=
let value := MmuOps.read s.mmu (addr % 65536) % 256
(value, { s with rw_cycles := s.rw_cycles + 4, mmu := MmuOps.tick s.mmu 4 })

/-- Cpu::write. -/
def Cpu.write (s : Cpu σ) (addr value : Nat) : Cpu σ :=
let m := MmuOps.write s.mmu (addr % 65536) (value % 256)
{ s with rw_cycles := s.rw_cycles + 4, mmu := MmuOps.tick m 4 }

/-- Cpu::read_u16: 8 T-cycles. -/
def Cpu.read_u16 (s : Cpu σ) (addr : Nat) : Nat × Cpu σ :=
let value := MmuOps.read_u16 s.mmu (addr % 65536)
(value, { s with rw_cycles := s.rw_cycles + 8, mmu := MmuOps.tick s.mmu 8 })

/-- Cpu::write_u16: 8 T-cycles. -/
def Cpu.write_u16 (s : Cpu σ) (addr value : Nat) : Cpu σ :=
let m := MmuOps.write_u16 s.mmu (addr % 65536) (value % 65536)
{ s with rw_cycles := s.rw_cycles + 8, mmu := MmuOps.tick m 8 }

/-- Cpu::wide_reg: 16-bit views over the byte halves (little-endian
storage, u16::from_le_bytes). -/
def Cpu.wide_reg (s : Cpu σ) : WideRegister → Nat
| WideRegister.BC => s.c % 256 + 256 * (s.b % 256)
| WideRegister.DE => s.e % 256 + 256 * (s.d % 256)
| WideRegister.HL => s.l % 256 + 256 * (s.h % 256)
| WideRegister.SP => s.sp % 65536
| WideRegister.AF => s.f % 256 + 256 * (s.a % 256)

/-- Cpu::set_wide_reg; writing AF truncates F to its four flag bits
(FlagsRegister::from_bits_truncate). -/
def Cpu.set_wide_reg (s : Cpu σ) (w : WideRegister) (value : Nat) : Cpu σ :=
let lo := value % 256
let hi := value / 256 % 256
match w with
| WideRegister.BC => { s with c := lo, b := hi }
| WideRegister.DE => { s with e := lo, d := hi }
| WideRegister.HL => { s with l := lo, h := hi }
| WideRegister.SP => { s with sp := value % 65536 }
| WideRegister.AF => { s with f := lo &&& 0xF0, a := hi }

/-- Cpu::reg: reading (HL) costs a memory read. -/
def Cpu.reg (s : Cpu σ) : Register → Nat × Cpu σ
| Register.A => (s.a % 256, s)
| Register.B => (s.b % 256, s)
| Register.C => (s.c % 256, s)
| Register.D => (s.d % 256, s)
| Register.E => (s.e % 256, s)
| Register.H => (s.h % 256, s)
| Register.L => (s.l % 256, s)
| Register.DerefHL => s.read (s.wide_reg WideRegister.HL)

/-- Cpu::set_reg: writing (HL) costs a memory write. -/
def Cpu.set_reg (s : Cpu σ) (r : Register) (value : Nat) : Cpu σ :=
match r with
| Register.A => { s with a := value % 256 }
| Register.B => { s with b := value % 256 }
| Register.C => { s with c := value % 256 }
| Register.D => { s with d := value % 256 }
| Register.E => { s with e := value % 256 }
| Register.H => { s with h := value % 256 }
| Register.L => { s with l := value % 256 }
| Register.DerefHL => s.write (s.wide_reg WideRegister.HL) value

/-- Cpu::condition. -/
def Cpu.condition (s : Cpu σ) : FlagCondition → Bool
| FlagCondition.NZ => !(flagsContains s.f FlagZ)
| FlagCondition.Z => flagsContains s.f FlagZ
| FlagCondition.NC => !(flagsContains s.f FlagC)
| FlagCondition.C => flagsContains s.f FlagC

/-- Cpu::pop. -/
def Cpu.pop (s : Cpu σ) : Nat × Cpu σ :=
let p := s.read_u16 s.sp
(p.1, { p.2 with sp := (p.2.sp + 2) % 65536 })

/-- Cpu::push. -/
def Cpu.push (s : Cpu σ) (value : Nat) : Cpu σ :=
let s := { s with sp := (s.sp % 65536 + 65536 - 2) % 65536 }
s.write_u16 s.sp value

/-- Cpu::ret. -/
def Cpu.ret (s : Cpu σ) : Cpu σ :=
let p := s.pop
{ p.2 with pc := p.1 % 65536 }

/-- Cpu::call. -/
def Cpu.call (s : Cpu σ) (addr : Nat) : Cpu σ :=
let s := s.push s.pc
{ s with pc := addr % 65536 }

/-- Cpu::pop_wide_reg. -/
def Cpu.pop_wide_reg (s : Cpu σ) (w : WideRegister) : Cpu σ :=
let p := s.pop
p.2.set_wide_reg w p.1

/-- Cpu::push_wide_reg. -/
def Cpu.push_wide_reg (s : Cpu σ) (w : WideRegister) : Cpu σ :=
s.push (s.wide_reg w)

/-! ALU helper predicates, from src/cpu/alu.rs. -/

/-- half_carry_add. -/
def half_carry_add (x y : Nat) : Bool := (((x &&& 0x0F) + (y &&& 0x0F)) &&& 0x10) == 0x10

/-- half_carry_adc. -/
def half_carry_adc (x y : Nat) (c : Bool) : Bool :=
(((x &&& 0x0F) + (y &&& 0x0F) + (if c then 1 else 0)) &&& 0x10) == 0x10

/-- half_carry_sub, with u8 wrapping subtraction of the low nibbles. -/
def half_carry_sub (x y : Nat) : Bool :=
((((x &&& 0x0F) + 256 - (y &&& 0x0F)) % 256) &&& 0x10) == 0x10

/-- half_carry_sbc. -/
def half_carry_sbc (x y : Nat) (c : Bool) : Bool :=
(x &&& 0x0F) < (y &&& 0x0F) + (if c then 1 else 0)

/-- half_carry_add_wide. -/
def half_carry_add_wide (x y : Nat) : Bool :=
(((x &&& 0x0FFF) + (y &&& 0x0FFF)) &&& 0x1000) == 0x1000

/-- Cpu::add. -/
def Cpu.add (s : Cpu σ) (n : Nat) : Cpu σ :=
let p := s.reg Register.A
let value := p.1
let s := p.2
let hc := half_carry_add value n
let res := (value + n) % 256
let carry := decide (256 ≤ value + n)
let s := s.set_reg Register.A res
{ s with f := flagsSet (flagsSet (flagsSet s.f FlagH hc) FlagC carry) FlagZ (res == 0) }

/-- Cpu::adc, with the two-step overflowing addition of the source. -/
def Cpu.adc (s : Cpu σ) (n : Nat) : Cpu σ :=
let p := s.reg Register.A
let value := p.1
let s := p.2
let old_carry := flagsIntersects s.f FlagC
let cval := if old_carry then 1 else 0
let hc := half_carry_adc value n old_carry
let v1 := (value + n) % 256
let carry1 := decide (256 ≤ value + n)
let v2 := (v1 + cval) % 256
let carry2 := decide (256 ≤ v1 + cval)
let s := s.set_reg Register.A v2
{ s with f := flagsSet (flagsSet (flagsSet s.f FlagH hc) FlagC (carry1 || carry2)) FlagZ (v2 == 0) }

/-- Cpu::sub. -/
def Cpu.sub (s : Cpu σ) (n : Nat) : Cpu σ :=
let p := s.reg Register.A
let value := p.1
let s := p.2
let hc := half_carry_sub value n
let res := (value + 256 - n % 256) % 256
let carry := decide (value < n % 256)
let s := s.set_reg Register.A res
{ s with f := flagsSet (flagsSet (flagsSet s.f FlagH hc) FlagC carry) FlagZ (res == 0) }

/-- Cpu::sbc, with the two-step overflowing subtraction of the source. -/
def Cpu.sbc (s : Cpu σ) (n : Nat) : Cpu σ :=
let p := s.reg Register.A
let value := p.1
let s := p.2
let old_carry := flagsIntersects s.f FlagC
let cval := if old_carry then 1 else 0
let hc := half_carry_sbc value n old_carry
let v1 := (value + 256 - n % 256) % 256
let carry1 := decide (value < n % 256)
let v2 := (v1 + 256 - cval) % 256
let carry2 := decide (v1 < cval)
let s := s.set_reg Register.A v2
{ s with f := flagsSet (flagsSet (flagsSet s.f FlagH hc) FlagC (carry1 || carry2)) FlagZ (v2 == 0) }

/-- Cpu::and. -/
def Cpu.and (s : Cpu σ) (n : Nat) : Cpu σ :=
let p := s.reg Register.A
let value := p.1 &&& n
let s := p.2.set_reg Register.A value
{ s with f := flagsSet s.f FlagZ (value == 0) }

/-- Cpu::xor. -/
def Cpu.xor (s : Cpu σ) (n : Nat) : Cpu σ :=
let p := s.reg Register.A
let value := p.1 ^^^ n % 256
let s := p.2.set_reg Register.A value
{ s with f := flagsSet s.f FlagZ (value == 0) }

/-- Cpu::or. -/
def Cpu.or (s : Cpu σ) (n : Nat) : Cpu σ :=
let p := s.reg Register.A
let value := p.1 ||| n % 256
let s := p.2.set_reg Register.A value
{ s with f := flagsSet s.f FlagZ (value == 0) }

/-- Cpu::cp: compare without storing the difference. -/
def Cpu.cp (s : Cpu σ) (n : Nat) : Cpu σ :=
let p := s.reg Register.A
let value := p.1
let s := p.2
let hc := half_carry_sub value n
let res := (value + 256 - n % 256) % 256
let carry := decide (value < n % 256)
{ s with f := flagsSet (flagsSet (flagsSet s.f FlagH hc) FlagC carry) FlagZ (res == 0) }

/-- Cpu::add_wide. -/
def Cpu.add_wide (s : Cpu σ) (lhs rhs : WideRegister) : Cpu σ :=
let x := s.wide_reg lhs
let y := s.wide_reg rhs
let hc := half_carry_add_wide x y
let res := (x + y) % 65536
let carry := decide (65536 ≤ x + y)
let s := s.set_wide_reg lhs res
{ s with f := flagsSet (flagsSet s.f FlagH hc) FlagC carry }

/-- Cpu::inc. -/
def Cpu.inc (s : Cpu σ) (r : Register) : Cpu σ :=
let p := s.reg r
let hc := half_carry_add p.1 1
let value := (p.1 + 1) % 256
let s := p.2.set_reg r value
{ s with f := flagsSet (flagsSet s.f FlagZ (value == 0)) FlagH hc }

/-- Cpu::dec. -/
def Cpu.dec (s : Cpu σ) (r : Register) : Cpu σ :=
let p := s.reg r
let hc := half_carry_sub p.1 1
let value := (p.1 + 255) % 256
let s := p.2.set_reg r value
{ s with f := flagsSet (flagsSet s.f FlagZ (value == 0)) FlagH hc }

/-- Cpu::inc_wide. -/
def Cpu.inc_wide (s : Cpu σ) (w : WideRegister) : Cpu σ :=
s.set_wide_reg w ((s.wide_reg w + 1) % 65536)

/-- Cpu::dec_wide. -/
def Cpu.dec_wide (s : Cpu σ) (w : WideRegister) : Cpu σ :=
s.set_wide_reg w ((s.wide_reg w + 65535) % 65536)

/-- Cpu::rlc. -/
def Cpu.rlc (s : Cpu σ) (r : Register) (z_flag : Bool) : Cpu σ :=
let p := s.reg r
let carry := bit8 p.1 7
let value := (p.1 <<< 1) % 256
let value := if carry then setBit8 value 0 else value
let s := p.2.set_reg r value
let s := if z_flag then { s with f := flagsSet s.f FlagZ (value == 0) } else s
{ s with f := flagsSet s.f FlagC carry }

/-- Cpu::rrc. -/
def Cpu.rrc (s : Cpu σ) (r : Register) (z_flag : Bool) : Cpu σ :=
let p := s.reg r
let carry := bit8 p.1 0
let value := p.1 >>> 1
let value := if carry then setBit8 value 7 else value
let s := p.2.set_reg r value
let s := if z_flag then { s with f := flagsSet s.f FlagZ (value == 0) } else s
{ s with f := flagsSet s.f FlagC carry }

/-- Cpu::rl. -/
def Cpu.rl (s : Cpu σ) (r : Register) (z_flag : Bool) : Cpu σ :=
let p := s.reg r
let old_carry := flagsIntersects p.2.f FlagC
let carry := bit8 p.1 7
let value := (p.1 <<< 1) % 256
let value := if old_carry then setBit8 value 0 else value
let s := p.2.set_reg r value
let s := if z_flag then { s with f := flagsSet s.f FlagZ (value == 0) } else s
{ s with f := flagsSet s.f FlagC carry }

/-- Cpu::rr. -/
def Cpu.rr (s : Cpu σ) (r : Register) (z_flag : Bool) : Cpu σ :=
let p := s.reg r
let old_carry := flagsIntersects p.2.f FlagC
let carry := bit8 p.1 0
let value := p.1 >>> 1
let value := if old_carry then setBit8 value 7 else value
let s := p.2.set_reg r value
let s := if z_flag then { s with f := flagsSet s.f FlagZ (value == 0) } else s
{ s with f := flagsSet s.f FlagC carry }

/-- Cpu::sla. -/
def Cpu.sla (s : Cpu σ) (r : Register) : Cpu σ :=
let p := s.reg r
let carry := bit8 p.1 7
let value := (p.1 <<< 1) % 256
let s := p.2.set_reg r value
{ s with f := flagsSet (flagsSet s.f FlagZ (value == 0)) FlagC carry }

/-- Cpu::sra: preserves the sign bit. -/
def Cpu.sra (s : Cpu σ) (r : Register) : Cpu σ :=
let p := s.reg r
let carry := bit8 p.1 0
let bit := bit8 p.1 7
let value := p.1 >>> 1
let value := if bit then setBit8 value 7 else value
let s := p.2.set_reg r value
{ s with f := flagsSet (flagsSet s.f FlagZ (value == 0)) FlagC carry }

/-- Cpu::swap. -/
def Cpu.swap (s : Cpu σ) (r : Register) : Cpu σ :=
let p := s.reg r
let value := ((p.1 &&& 0x0F) <<< 4) ||| (p.1 >>> 4)
let s := p.2.set_reg r value
{ s with f := flagsSet s.f FlagZ (value == 0) }

/-- Cpu::srl. -/
def Cpu.srl (s : Cpu σ) (r : Register) : Cpu σ :=
let p := s.reg r
let carry := bit8 p.1 0
let value := p.1 >>> 1
let s := p.2.set_reg r value
{ s with f := flagsSet (flagsSet s.f FlagZ (value == 0)) FlagC carry }

/-- The DAA body, written inline in the Daa arm of Instruction::execute in
src/cpu/execute.rs and factored into a helper here. -/
def Cpu.daa (s : Cpu σ) : Cpu σ :=
let p := s.reg Register.A
let value := p.1
let s := p.2
let vs : Nat × Cpu σ :=
  if !(flagsIntersects s.f FlagN) then
    let vs1 : Nat × Cpu σ :=
      if flagsIntersects s.f FlagC || decide (0x99 < value) then
        ((value + 0x60) % 256, { s with f := flagsInsert s.f FlagC })
      else (value, s)
    let value := vs1.1
    let s := vs1.2
    if flagsIntersects s.f FlagH || decide (0x09 < value &&& 0x0F) then
      ((value + 0x06) % 256, s)
    else (value, s)
  else
    let value := if flagsIntersects s.f FlagC then (value + 256 - 0x60) % 256 else value
    let value := if flagsIntersects s.f FlagH then (value + 256 - 0x06) % 256 else value
    (value, s)
let value := vs.1
let s := vs.2
let s := s.set_reg Register.A value
{ s with f := flagsSet s.f FlagZ (value == 0) }

/-- Cpu::add_sp_offset: sets H and C from the low-byte addition of SP and
the offset byte, and returns the wrapped 16-bit sum. -/
def Cpu.add_sp_offset (s : Cpu σ) (offset : Int) : Nat × Cpu σ :=
let value := s.sp % 65536
let lo := value % 256
let unsigned_offset := (offset % 256).toNat
let hc := half_carry_add lo unsigned_offset
let carry := decide (256 ≤ lo + unsigned_offset)
let s := { s with f := flagsSet (flagsSet s.f FlagH hc) FlagC carry }
(addSigned16 value offset, s)

/-- Instruction::execute from src/cpu/execute.rs: run one opcode and
return the consumed T-cycles.  The arms for Halt, Reti, DI and EI are
commented out in the source and fall through to the default arm, which
performs no work and bills the base cycles. -/
def Instruction.exec (i : Instruction) (s : Cpu σ) : Cpu σ × Int :=
match i.opcode with
| Opcode.Nop => (s, i.cycles)
| Opcode.LdDerefImmSp addr => ({ s with sp := addr % 65536 }, i.cycles)
| Opcode.Stop => (s, i.cycles)
| Opcode.Jr offset =>
  let pc1 := (((s.pc : Int) - (i.length : Int)) % 65536).toNat
  ({ s with pc := addSigned16 pc1 offset }, i.cycles)
| Opcode.JrCond cond offset =>
  if s.condition cond then ({ s with pc := addSigned16 s.pc offset }, i.branch_cycles)
  else (s, i.cycles)
| Opcode.LdWideRegImm w value => (s.set_wide_reg w value, i.cycles)
| Opcode.AddHLWideReg w => (s.add_wide WideRegister.HL w, i.cycles)
| Opcode.LdDerefWideRegA w =>
  let addr := s.wide_reg w
  (s.write addr (s.a % 256), i.cycles)
| Opcode.LdADerefWideReg w =>
  let addr := s.wide_reg w
  let p := s.read addr
  (p.2.set_reg Register.A p.1, i.cycles)
| Opcode.LdHLIncA =>
  let p := s.reg Register.A
  let s := p.2.set_reg Register.DerefHL p.1
  (s.inc_wide WideRegister.HL, i.cycles)
| Opcode.LdHLDecA =>
  let p := s.reg Register.A
  let s := p.2.set_reg Register.DerefHL p.1
  (s.dec_wide WideRegister.HL, i.cycles)
| Opcode.LdAHLInc =>
  let p := s.reg Register.DerefHL
  let s := p.2.set_reg Register.A p.1
  (s.inc_wide WideRegister.HL, i.cycles)
| Opcode.LdAHLDec =>
  let p := s.reg Register.DerefHL
  let s := p.2.set_reg Register.A p.1
  (s.dec_wide WideRegister.HL, i.cycles)
| Opcode.IncWideReg w => (s.inc_wide w, i.cycles)
| Opcode.DecWideReg w => (s.dec_wide w, i.cycles)
| Opcode.IncReg r => (s.inc r, i.cycles)
| Opcode.DecReg r => (s.dec r, i.cycles)
| Opcode.LdRegImm r n => (s.set_reg r n, i.cycles)
| Opcode.Rlca => (s.rlc Register.A false, i.cycles)
| Opcode.Rrca => (s.rrc Register.A false, i.cycles)
| Opcode.Rla => (s.rl Register.A false, i.cycles)
| Opcode.Rra => (s.rr Register.A false, i.cycles)
| Opcode.Daa => (s.daa, i.cycles)
| Opcode.Cpl =>
  let p := s.reg Register.A
  (p.2.set_reg Register.A (255 ^^^ p.1), i.cycles)
| Opcode.Scf => (s, i.cycles)
| Opcode.Ccf => ({ s with f := flagsToggle s.f FlagC }, i.cycles)
| Opcode.Ld r1 r2 =>
  let p := s.reg r2
  (p.2.set_reg r1 p.1, i.cycles)
| Opcode.Halt => (s, i.cycles)
| Opcode.Add r =>
  let p := s.reg r
  (p.2.add p.1, i.cycles)
| Opcode.Adc r =>
  let p := s.reg r
  (p.2.adc p.1, i.cycles)
| Opcode.Sub r =>
  let p := s.reg r
  (p.2.sub p.1, i.cycles)
| Opcode.Sbc r =>
  let p := s.reg r
  (p.2.sbc p.1, i.cycles)
| Opcode.And r =>
  let p := s.reg r
  (p.2.and p.1, i.cycles)
| Opcode.Xor r =>
  let p := s.reg r
  (p.2.xor p.1, i.cycles)
| Opcode.Or r =>
  let p := s.reg r
  (p.2.or p.1, i.cycles)
| Opcode.Cp r =>
  let p := s.reg r
  (p.2.cp p.1, i.cycles)
| Opcode.RetCond cond =>
  if s.condition cond then (s.ret, i.branch_cycles) else (s, i.cycles)
| Opcode.LdOffsetImmA offset =>
  let p := s.reg Register.A
  (p.2.write (0xFF00 + offset % 256) p.1, i.cycles)
| Opcode.AddSpDisp offset =>
  let p := s.add_sp_offset offset
  ({ p.2 with sp := p.1 }, i.cycles)
| Opcode.LdAOffsetImm offset =>
  let p := s.read (0xFF00 + offset % 256)
  (p.2.set_reg Register.A p.1, i.cycles)
| Opcode.LdHLSPDisp offset =>
  let p := s.add_sp_offset offset
  (p.2.set_wide_reg WideRegister.HL p.1, i.cycles)
| Opcode.PopWideReg w => (s.pop_wide_reg w, i.cycles)
| Opcode.Ret => (s.ret, i.cycles)
| Opcode.Reti => (s, i.cycles)
| Opcode.JpHL => ({ s with pc := s.wide_reg WideRegister.HL }, i.cycles)
| Opcode.LdSPHL => ({ s with sp := s.wide_reg WideRegister.HL }, i.cycles)
| Opcode.JPCondImm cond addr =>
  if s.condition cond then ({ s with pc := addr % 65536 }, i.branch_cycles)
  else (s, i.cycles)
| Opcode.LdOffsetCA =>
  let pa := s.reg Register.A
  let pcreg := pa.2.reg Register.C
  (pcreg.2.write (0xFF00 + pcreg.1) pa.1, i.cycles)
| Opcode.LdDerefImmA addr =>
  let p := s.reg Register.A
  (p.2.write addr p.1, i.cycles)
| Opcode.LdAOffsetC =>
  let pcreg := s.reg Register.C
  let p := pcreg.2.read (0xFF00 + pcreg.1)
  (p.2.set_reg Register.A p.1, i.cycles)
| Opcode.LdADerefImm addr =>
  let p := s.read addr
  (p.2.set_reg Register.A p.1, i.cycles)
| Opcode.JP addr => ({ s with pc := addr % 65536 }, i.cycles)
| Opcode.DI => (s, i.cycles)
| Opcode.EI => (s, i.cycles)
| Opcode.CallCondImm cond addr =>
  if s.condition cond then (s.call addr, i.branch_cycles) else (s, i.cycles)
| Opcode.PushWideReg w => (s.push_wide_reg w, i.cycles)
| Opcode.CallImm addr => (s.call addr, i.cycles)
| Opcode.AddImm n => (s.add n, i.cycles)
| Opcode.AdcImm n => (s.adc n, i.cycles)
| Opcode.SubImm n => (s.sub n, i.cycles)
| Opcode.SbcImm n => (s.sbc n, i.cycles)
| Opcode.AndImm n => (s.and n, i.cycles)
| Opcode.XorImm n => (s.xor n, i.cycles)
| Opcode.OrImm n => (s.or n, i.cycles)
| Opcode.CpImm n => (s.cp n, i.cycles)
| Opcode.Rst addr => (s.call addr, i.cycles)
| Opcode.Rlc r => (s.rlc r true, i.cycles)
| Opcode.Rrc r => (s.rrc r true, i.cycles)
| Opcode.Rl r => (s.rl r true, i.cycles)
| Opcode.Rr r => (s.rr r true, i.cycles)
| Opcode.Sla r => (s.sla r, i.cycles)
| Opcode.Sra r => (s.sra r, i.cycles)
| Opcode.Swap r => (s.swap r, i.cycles)
| Opcode.Srl r => (s.srl r, i.cycles)
| Opcode.Bit b r =>
  let p := s.reg r
  ({ p.2 with f := flagsSet p.2.f FlagZ (!(bit8 p.1 b)) }, i.cycles)
| Opcode.Res b r =>
  let p := s.reg r
  (p.2.set_reg r (resetBit8 p.1 b), i.cycles)
| Opcode.Set b r =>
  let p := s.reg r
  (p.2.set_reg r (setBit8 p.1 b), i.cycles)

/-- Cpu::execute from src/cpu/cpu.rs: advance PC by the instruction
length, tick the operand-fetch cycles, run the opcode, apply the set and
then the reset flag masks, and tick the remaining cycles.  The assert
that total cycles do not undershoot rw_cycles is the subject of claim
C3. -/
def Cpu.execute (s : Cpu σ) (i : Instruction) : Cpu σ × Int :=
let s := { s with pc := (s.pc + i.length) % 65536 }
let s := { s with mmu := MmuOps.tick s.mmu i.read_cycles, rw_cycles := i.read_cycles }
let r := i.exec s
let s := r.1
let total := r.2
let s := { s with f := flagsRemove (flagsInsert s.f i.set_flags) i.reset_flags }
let s := { s with mmu := MmuOps.tick s.mmu (total - s.rw_cycles) }
(s, total)

/-- Cpu::fetch: decode from an MmuByteStream that starts at PC and
advances with wrapping; fetching reads through the immutable MMU
reference and changes nothing. -/
def Cpu.fetch (s : Cpu σ) : Except Nat Instruction :=
Instruction.tryFrom
  (MmuOps.read s.mmu (s.pc % 65536))
  (MmuOps.read s.mmu ((s.pc + 1) % 65536))
  (MmuOps.read s.mmu ((s.pc + 2) % 65536))

/-- Cpu::step: on an unknown opcode, log and return
DEFAULT_READ_WRITE_CYCLES = 4 without touching any state; otherwise
execute the fetched instruction. -/
def Cpu.step (s : Cpu σ) : Cpu σ × Int :=
match s.fetch with
| Except.error _ => (s, 4)
| Except.ok instr => s.execute instr

/-! Accounting lemmas: how each CPU helper changes rw_cycles. -/

/-- The rw cost of touching a register operand: 4 T-cycles for (HL),
nothing otherwise. -/
def regCost : Register → Int
| Register.DerefHL => 4
| _ => 0

theorem regCost_cases (r : Register) : regCost r = 0 ∨ regCost r = 4 := by
  cases r <;> simp [regCost]

theorem read_rw (s : Cpu σ) (a : Nat) : (s.read a).2.rw_cycles = s.rw_cycles + 4 := rfl

theorem write_rw (s : Cpu σ) (a v : Nat) : (s.write a v).rw_cycles = s.rw_cycles + 4 := rfl

theorem read_u16_rw (s : Cpu σ) (a : Nat) : (s.read_u16 a).2.rw_cycles = s.rw_cycles + 8 := rfl

theorem write_u16_rw (s : Cpu σ) (a v : Nat) : (s.write_u16 a v).rw_cycles = s.rw_cycles + 8 := rfl

theorem reg_rw (s : Cpu σ) (r : Register) : (s.reg r).2.rw_cycles = s.rw_cycles + regCost r := by
  cases r <;> simp [Cpu.reg, Cpu.read, regCost]

theorem set_reg_rw (s : Cpu σ) (r : Register) (v : Nat) :
    (s.set_reg r v).rw_cycles = s.rw_cycles + regCost r := by
  cases r <;> simp [Cpu.set_reg, Cpu.write, regCost]

theorem set_wide_reg_rw (s : Cpu σ) (w : WideRegister) (v : Nat) :
    (s.set_wide_reg w v).rw_cycles = s.rw_cycles := by
  cases w <;> rfl

theorem pop_rw (s : Cpu σ) : (s.pop).2.rw_cycles = s.rw_cycles + 8 := rfl

theorem push_rw (s : Cpu σ) (v : Nat) : (s.push v).rw_cycles = s.rw_cycles + 8 := rfl

theorem ret_rw (s : Cpu σ) : (s.ret).rw_cycles = s.rw_cycles + 8 := rfl

theorem call_rw (s : Cpu σ) (a : Nat) : (s.call a).rw_cycles = s.rw_cycles + 8 := rfl

theorem pop_wide_reg_rw (s : Cpu σ) (w : WideRegister) :
    (s.pop_wide_reg w).rw_cycles = s.rw_cycles + 8 := by
  unfold Cpu.pop_wide_reg
  rw [set_wide_reg_rw, pop_rw]

theorem push_wide_reg_rw (s : Cpu σ) (w : WideRegister) :
    (s.push_wide_reg w).rw_cycles = s.rw_cycles + 8 := rfl

theorem add_rw (s : Cpu σ) (n : Nat) : (s.add n).rw_cycles = s.rw_cycles := rfl

theorem adc_rw (s : Cpu σ) (n : Nat) : (s.adc n).rw_cycles = s.rw_cycles := rfl

theorem sub_rw (s : Cpu σ) (n : Nat) : (s.sub n).rw_cycles = s.rw_cycles := rfl

theorem sbc_rw (s : Cpu σ) (n : Nat) : (s.sbc n).rw_cycles = s.rw_cycles := rfl

theorem and_rw (s : Cpu σ) (n : Nat) : (s.and n).rw_cycles = s.rw_cycles := rfl

theorem xor_rw (s : Cpu σ) (n : Nat) : (s.xor n).rw_cycles = s.rw_cycles := rfl

theorem or_rw (s : Cpu σ) (n : Nat) : (s.or n).rw_cycles = s.rw_cycles := rfl

theorem cp_rw (s : Cpu σ) (n : Nat) : (s.cp n).rw_cycles = s.rw_cycles := rfl

theorem add_wide_rw (s : Cpu σ) (lhs rhs : WideRegister) :
    (s.add_wide lhs rhs).rw_cycles = s.rw_cycles := by
  unfold Cpu.add_wide
  rw [set_wide_reg_rw]

theorem inc_rw (s : Cpu σ) (r : Register) :
    (s.inc r).rw_cycles = s.rw_cycles + regCost r + regCost r := by
  unfold Cpu.inc
  rw [set_reg_rw, reg_rw]

theorem dec_rw (s : Cpu σ) (r : Register) :
    (s.dec r).rw_cycles = s.rw_cycles + regCost r + regCost r := by
  unfold Cpu.dec
  rw [set_reg_rw, reg_rw]

theorem inc_wide_rw (s : Cpu σ) (w : WideRegister) :
    (s.inc_wide w).rw_cycles = s.rw_cycles := by
  unfold Cpu.inc_wide
  rw [set_wide_reg_rw]

theorem dec_wide_rw (s : Cpu σ) (w : WideRegister) :
    (s.dec_wide w).rw_cycles = s.rw_cycles := by
  unfold Cpu.dec_wide
  rw [set_wide_reg_rw]

theorem rlc_rw (s : Cpu σ) (r : Register) (z : Bool) :
    (s.rlc r z).rw_cycles = s.rw_cycles + regCost r + regCost r := by
  unfold Cpu.rlc
  cases z <;> simp <;> rw [set_reg_rw, reg_rw]

theorem rrc_rw (s : Cpu σ) (r : Register) (z : Bool) :
    (s.rrc r z).rw_cycles = s.rw_cycles + regCost r + regCost r := by
  unfold Cpu.rrc
  cases z <;> simp <;> rw [set_reg_rw, reg_rw]

theorem rl_rw (s : Cpu σ) (r : Register) (z : Bool) :
    (s.rl r z).rw_cycles = s.rw_cycles + regCost r + regCost r := by
  unfold Cpu.rl
  cases z <;> simp <;> rw [set_reg_rw, reg_rw]

theorem rr_rw (s : Cpu σ) (r : Register) (z : Bool) :
    (s.rr r z).rw_cycles = s.rw_cycles + regCost r + regCost r := by
  unfold Cpu.rr
  cases z <;> simp <;> rw [set_reg_rw, reg_rw]

theorem sla_rw (s : Cpu σ) (r : Register) :
    (s.sla r).rw_cycles = s.rw_cycles + regCost r + regCost r := by
  unfold Cpu.sla
  rw [set_reg_rw, reg_rw]

theorem sra_rw (s : Cpu σ) (r : Register) :
    (s.sra r).rw_cycles = s.rw_cycles + regCost r + regCost r := by
  unfold Cpu.sra
  rw [set_reg_rw, reg_rw]

theorem swap_rw (s : Cpu σ) (r : Register) :
    (s.swap r).rw_cycles = s.rw_cycles + regCost r + regCost r := by
  unfold Cpu.swap
  rw [set_reg_rw, reg_rw]

theorem srl_rw (s : Cpu σ) (r : Register) :
    (s.srl r).rw_cycles = s.rw_cycles + regCost r + regCost r := by
  unfold Cpu.srl
  rw [set_reg_rw, reg_rw]

theorem add_sp_offset_rw (s : Cpu σ) (d : Int) :
    (s.add_sp_offset d).2.rw_cycles = s.rw_cycles := rfl

theorem daa_rw (s : Cpu σ) : (s.daa).rw_cycles = s.rw_cycles := by
  unfold Cpu.daa
  dsimp only
  split_ifs <;> simp [set_reg_rw, reg_rw, regCost]

set_option maxHeartbeats 12000000 in
/-- Cycle accounting of Cpu::execute, for every opcode the decoder can
produce and every starting state: the accumulated rw_cycles never exceed
the returned total (the assert in Cpu::execute), rw_cycles are a
nonnegative multiple of 4, and the total is a positive multiple of 4. -/
theorem execute_cycle_accounting (op : Opcode) (s : Cpu σ) :
    (s.execute (Instruction.ofOpcode op)).1.rw_cycles ≤ (s.execute (Instruction.ofOpcode op)).2 ∧
    0 ≤ (s.execute (Instruction.ofOpcode op)).1.rw_cycles ∧
    0 < (s.execute (Instruction.ofOpcode op)).2 ∧
    (4 : Int) ∣ (s.execute (Instruction.ofOpcode op)).1.rw_cycles ∧
    (4 : Int) ∣ (s.execute (Instruction.ofOpcode op)).2 := by
  cases op <;> (try cases ‹Register›) <;> (try cases ‹Register›) <;>
    first
    | (simp [Instruction.ofOpcode, Instruction.configure, InstructionBuilder.new,
        InstructionBuilder.build, InstructionBuilder.withLength, InstructionBuilder.withReadCycles,
        InstructionBuilder.withCycles, InstructionBuilder.withBranchCycles,
        InstructionBuilder.addSetFlag, InstructionBuilder.addResetFlag,
        Cpu.execute, Instruction.exec,
        read_rw, write_rw, read_u16_rw, write_u16_rw, reg_rw, set_reg_rw, set_wide_reg_rw,
        pop_rw, push_rw, ret_rw, call_rw, pop_wide_reg_rw, push_wide_reg_rw,
        add_rw, adc_rw, sub_rw, sbc_rw, and_rw, xor_rw, or_rw, cp_rw, add_wide_rw,
        inc_rw, dec_rw, inc_wide_rw, dec_wide_rw, rlc_rw, rrc_rw, rl_rw, rr_rw,
        sla_rw, sra_rw, swap_rw, srl_rw, add_sp_offset_rw, daa_rw, regCost] <;> omega)
    | (simp only [Instruction.ofOpcode, Instruction.configure, InstructionBuilder.new,
        InstructionBuilder.build, InstructionBuilder.withLength, InstructionBuilder.withReadCycles,
        InstructionBuilder.withCycles, InstructionBuilder.withBranchCycles,
        InstructionBuilder.addSetFlag, InstructionBuilder.addResetFlag,
        Cpu.execute, Instruction.exec]
       split <;>
       simp [read_rw, write_rw, read_u16_rw, write_u16_rw, reg_rw, set_reg_rw, set_wide_reg_rw,
        pop_rw, push_rw, ret_rw, call_rw, pop_wide_reg_rw, push_wide_reg_rw,
        add_rw, adc_rw, sub_rw, sbc_rw, and_rw, xor_rw, or_rw, cp_rw, add_wide_rw,
        inc_rw, dec_rw, inc_wide_rw, dec_wide_rw, rlc_rw, rrc_rw, rl_rw, rr_rw,
        sla_rw, sra_rw, swap_rw, srl_rw, add_sp_offset_rw, daa_rw, regCost] <;> omega)

/-- Every instruction a successful fetch returns is built from a decoded
opcode by Instruction::try_from. -/
theorem fetch_ok_ofOpcode {s : Cpu σ} {i : Instruction} (h : s.fetch = Except.ok i) :
    ∃ op, i = Instruction.ofOpcode op := by
  unfold Cpu.fetch Instruction.tryFrom at h
  rcases hd : Opcode.decode? (MmuOps.read s.mmu (s.pc % 65536))
      (MmuOps.read s.mmu ((s.pc + 1) % 65536)) (MmuOps.read s.mmu ((s.pc + 2) % 65536))
    with _ | r
  · rw [hd] at h
    simp at h
  · rw [hd] at h
    cases r with
    | ok op =>
      simp at h
      exact ⟨op, h.symm⟩
    | error b =>
      simp at h

/-- C3 (amended): whenever step executes an instruction (the fetch
succeeds), the accumulated rw_cycles do not exceed the returned total
cycles, the total is a positive multiple of 4, and rw_cycles is a
nonnegative (possibly zero) multiple of 4. -/
theorem c3_step_cycle_accounting (s : Cpu σ) (i : Instruction)
    (h : s.fetch = Except.ok i) :
    (Cpu.step s).1.rw_cycles ≤ (Cpu.step s).2 ∧
    0 ≤ (Cpu.step s).1.rw_cycles ∧
    0 < (Cpu.step s).2 ∧
    (4 : Int) ∣ (Cpu.step s).1.rw_cycles ∧
    (4 : Int) ∣ (Cpu.step s).2 := by
  have hstep : Cpu.step s = s.execute i := by
    unfold Cpu.step
    rw [h]
  obtain ⟨op, rfl⟩ := fetch_ok_ofOpcode h
  rw [hstep]
  exact execute_cycle_accounting op s

/-- C6 (amended): when the fetched byte does not decode, step returns 4
T-cycles and leaves PC unchanged (it does not advance it). -/
theorem c6_undefined_opcode_keeps_pc (s : Cpu σ) (b : Nat)
    (h : s.fetch = Except.error b) :
    (Cpu.step s).2 = 4 ∧ (Cpu.step s).1.pc = s.pc := by
  unfold Cpu.step
  rw [h]
  exact ⟨rfl, rfl⟩

/-- C10: when the fetched byte does not decode, step returns the machine
state completely unchanged (registers, rw_cycles, memory, tick stream)
together with the default 4 T-cycles. -/
theorem c10_undefined_opcode_no_state_change (s : Cpu σ) (b : Nat)
    (h : s.fetch = Except.error b) : Cpu.step s = (s, 4) := by
  unfold Cpu.step
  rw [h]

/-! Concrete machines used as witnesses, built from a function memory with
a tick counter (the shape of the DummyMmu test double). -/

/-- A functional memory collaborator with a cumulative tick counter. -/
structure FunMem where
mem : Nat → Nat
ticks : Int

instance : MmuOps FunMem where
read m a := m.mem (a % 65536)
write m a v := { m with mem := fun i => if i = a % 65536 then v % 256 else m.mem i }
tick m c := { m with ticks := m.ticks + c }

/-- Memory preloaded with a byte list at address 0 (zero elsewhere). -/
def romMem (l : List Nat) : FunMem := { mem := fun i => l.getD i 0, ticks := 0 }

/-- A machine about to execute NOP. -/
def nopState : Cpu FunMem := Cpu.new (romMem [0x00])

/-- A machine about to execute LD B, 0x01. -/
def ldState : Cpu FunMem := Cpu.new (romMem [0x06, 0x01])

/-- A machine whose next byte is the undefined opcode 0xD3. -/
def undefState : Cpu FunMem := Cpu.new (romMem [0xD3])

/-- Witness for C3 at the concrete LD B, 0x01 machine. -/
theorem c3_step_cycle_accounting_witness :
    Cpu.fetch ldState = Except.ok (Instruction.ofOpcode (Opcode.LdRegImm Register.B 1)) ∧
    ((Cpu.step ldState).1.rw_cycles ≤ (Cpu.step ldState).2 ∧
      0 ≤ (Cpu.step ldState).1.rw_cycles ∧
      0 < (Cpu.step ldState).2 ∧
      (4 : Int) ∣ (Cpu.step ldState).1.rw_cycles ∧
      (4 : Int) ∣ (Cpu.step ldState).2) :=
  ⟨rfl, c3_step_cycle_accounting ldState (Instruction.ofOpcode (Opcode.LdRegImm Register.B 1)) rfl⟩

/-- C3 counterexample: NOP is executed by step (the fetch succeeds) yet
its accumulated rw_cycles are 0, which is not positive, refuting the
claim that both values are positive multiples of 4. -/
theorem c3_counterexample_nop_rw_zero :
    Cpu.fetch nopState = Except.ok (Instruction.ofOpcode Opcode.Nop) ∧
    (Cpu.step nopState).1.rw_cycles = 0 ∧
    ¬(0 < (Cpu.step nopState).1.rw_cycles) := by
  refine ⟨rfl, rfl, ?_⟩
  have h : (Cpu.step nopState).1.rw_cycles = 0 := rfl
  rw [h]
  norm_num

/-- Witness for C6 at the concrete 0xD3 machine. -/
theorem c6_undefined_opcode_keeps_pc_witness :
    Cpu.fetch undefState = Except.error 0xD3 ∧
    ((Cpu.step undefState).2 = 4 ∧ (Cpu.step undefState).1.pc = undefState.pc) :=
  ⟨rfl, c6_undefined_opcode_keeps_pc undefState 0xD3 rfl⟩

/-- C6 counterexample: on the undefined byte 0xD3 at PC = 0 the step
returns 4 T-cycles but PC stays 0 instead of advancing to 1. -/
theorem c6_counterexample_pc_not_advanced :
    Cpu.fetch undefState = Except.error 0xD3 ∧
    (Cpu.step undefState).2 = 4 ∧
    (Cpu.step undefState).1.pc = 0 ∧
    (0 : Nat) ≠ 1 := ⟨rfl, rfl, rfl, by norm_num⟩

/-- Witness for C10 at the concrete 0xD3 machine. -/
theorem c10_undefined_opcode_no_state_change_witness :
    Cpu.fetch undefState = Except.error 0xD3 ∧
    Cpu.step undefState = (undefState, 4) :=
  ⟨rfl, c10_undefined_opcode_no_state_change undefState 0xD3 rfl⟩

/-- A machine with a pending, enabled VBlank interrupt: IE (0xFFFF) and IF
(0xFF0F) both read 1, and PC = 0x100 points at a NOP. -/
def pendingIntState : Cpu FunMem :=
{ Cpu.new { mem := fun i => if i = 0xFFFF ∨ i = 0xFF0F then 1 else 0, ticks := 0 }
  with pc := 0x100 }

/-- C2: the interrupt controller reports a pending priority interrupt
(VBlank, IE AND IF = 1) yet step performs no dispatch: the Cpu has no ime
flag at all, never calls priority_interrupt, and simply fetches and
executes the NOP at PC, advancing PC to 0x101 (not 0x40) and charging 4
T-cycles (not 20). -/
theorem c2_step_never_dispatches_interrupts :
    (InterruptRegisters.mk 1 1).priority_interrupt = some Interrupt.VBlank ∧
    MmuOps.read pendingIntState.mmu 0xFFFF = 1 ∧
    MmuOps.read pendingIntState.mmu 0xFF0F = 1 ∧
    (Cpu.step pendingIntState).1.pc = 0x101 ∧
    (Cpu.step pendingIntState).2 = 4 ∧
    (0x101 : Nat) ≠ Interrupt.VBlank.handler_address ∧
    ((4 : Int) ≠ 20) := by
  refine ⟨rfl, rfl, rfl, rfl, rfl, by decide, by decide⟩

end QGB
